import Mathlib

/-!
Verification of the timetable scheduling core (`scheduler-backend/scheduler.py`).

The development shallowly embeds the Python source:
* wall-clock strings are parsed exactly as `time_to_minutes` does (split on ":",
  integer-parse both parts, fail otherwise);
* the slot-generation `while` loop is modelled with explicit fuel, so that
  non-termination of the loop is distinguishable from an exception inside the
  `try` block (which yields the hard-coded fallback slot list);
* the CP-SAT solver is an external oracle: a solver outcome is a status plus a
  0/1 valuation of the decision-variable keys, and the solver contract is that
  an OPTIMAL/FEASIBLE outcome satisfies every constraint the code added to the
  model (`feasibleB` below);
* all sources of randomness (`uuid.uuid4`, `np.random.choice`,
  `np.random.shuffle`) are oracle-supplied functions.
-/

/-! ## Time parsing and formatting (`time_to_minutes` / `minutes_to_time`) -/

/-- Python `str.split(sep)` on character lists: split at every occurrence of `c`
(an empty input yields one empty field, as in Python). -/
def splitCharsOn (c : Char) : List Char → List (List Char)
  | [] => [[]]
  | ch :: rest =>
    match splitCharsOn c rest with
    | [] => [[ch]]
    | g :: gs => if ch = c then [] :: g :: gs else (ch :: g) :: gs

/-- Strip leading and trailing whitespace (what Python `int(...)` tolerates). -/
def trimChars (l : List Char) : List Char :=
  ((l.dropWhile (·.isWhitespace)).reverse.dropWhile (·.isWhitespace)).reverse

/-- `pre` is a prefix of the character list. -/
def listStarts : List Char → List Char → Bool
  | [], _ => true
  | _ :: _, [] => false
  | a :: as, b :: bs => decide (a = b) && listStarts as bs

/-- Python `s.startswith(pre)`. -/
def strStartsWith (s pre : String) : Bool :=
  listStarts pre.data s.data

/-- Value of a list of decimal digit characters; `none` if a non-digit occurs.
Mirrors Python `int(...)` on an unsigned digit string. -/
def digitsVal (l : List Char) : Option Nat :=
  l.foldl
    (fun acc c =>
      match acc with
      | none => none
      | some n => if c.isDigit then some (n * 10 + (c.toNat - 48)) else none)
    (some 0)

/-- Python `int(s)`: optional surrounding whitespace, optional sign, decimal
digits; `none` models the `ValueError`. -/
def pyInt (s : String) : Option Int :=
  match trimChars s.data with
  | [] => none
  | '-' :: rest =>
      if rest.isEmpty then none else (digitsVal rest).map (fun n => -(n : Int))
  | '+' :: rest =>
      if rest.isEmpty then none else (digitsVal rest).map (fun n => (n : Int))
  | cs => (digitsVal cs).map (fun n => (n : Int))

/-- Model of `time_to_minutes`: `hours, minutes = map(int, time_str.split(':'))`;
any failure (wrong arity or unparsable part) raises, modelled as `none`. -/
def timeToMinutes (t : String) : Option Int :=
  match splitCharsOn ':' t.data with
  | [h, m] =>
      match pyInt (String.mk h), pyInt (String.mk m) with
      | some a, some b => some (a * 60 + b)
      | _, _ => none
  | _ => none

/-- Python `f"{i:02d}"`: left-pad with a zero to width 2. -/
def pad2 (i : Int) : String :=
  if 0 ≤ i ∧ i < 10 then "0" ++ toString i else toString i

/-- Model of `minutes_to_time`: `f"{minutes // 60:02d}:{minutes % 60:02d}"`
(Python `//` and `%` are floor division/modulus, which agree with Euclidean
division for the positive divisor 60). -/
def minutesToTime (m : Int) : String :=
  pad2 (Int.ediv m 60) ++ ":" ++ pad2 (Int.emod m 60)

/-! ## The data model (input record entities) -/

/-- A free period (`freePeriods` items).  A missing `name`/`startTime` is
modelled as the empty string, matching the falsiness test the code performs. -/
structure FreePeriod where
  name : String
  startTime : String
  duration : Option Int
  days : List String
  forClasses : List String
deriving DecidableEq

/-- The `schedulingPreferences` record. -/
structure Prefs where
  balanceSubjectsAcrossDays : Option Bool
  preferMorningForHeavySubjects : Option Bool
  heavySubjects : List String
deriving DecidableEq

/-- One availability time slot of a teacher. -/
structure AvailSlot where
  startTime : String
  endTime : String
deriving DecidableEq

/-- One availability record of a teacher (a day plus its slots). -/
structure TeacherAvail where
  day : String
  timeSlots : List AvailSlot
deriving DecidableEq

structure Teacher where
  id : String
  name : String
  subjects : List String
  maxHoursPerDay : Option Int
  maxHoursPerWeek : Option Int
  availability : List TeacherAvail
deriving DecidableEq

structure SchoolClass where
  id : String
  name : String
  requiredSubjects : List String
deriving DecidableEq

structure Subject where
  id : String
  name : String
  hoursPerWeek : Int
deriving DecidableEq

structure Room where
  id : String
  name : String
deriving DecidableEq

/-- The raw `school_settings` dict.  The thirteen settings the constructor
requires are `Option`-valued: `none` models a missing key (or an explicit
`None`), exactly what the constructor's missing-settings check rejects. -/
structure RawSettings where
  startTime : Option String
  endTime : Option String
  lessonDuration : Option Int
  breakDuration : Option Int
  hasBreakfastBreak : Option Bool
  breakfastBreakStartTime : Option String
  breakfastBreakDuration : Option Int
  lunchBreakDuration : Option Int
  lunchBreakStartTime : Option String
  lessonsPerDay : Option Int
  daysPerWeek : Option Int
  workingDays : Option (List String)
  useRoomConstraints : Option Bool
  maxSubjectsPerDay : Option Int
  minSubjectsPerDay : Option Int
  exactLessonsPerDay : Option Int
  freePeriods : List FreePeriod
  schedulingPreferences : Prefs
deriving DecidableEq

/-- The full input record passed to `generate_schedule` / `validate_constraints`.
`school_settings = none` models a missing or empty settings dict. -/
structure InputData where
  school_settings : Option RawSettings
  teachers : List Teacher
  classes : List SchoolClass
  subjects : List Subject
  rooms : List Room
deriving DecidableEq

def defaultTeacher : Teacher := ⟨"", "", [], none, none, []⟩
def defaultClass : SchoolClass := ⟨"", "", []⟩
def defaultSubject : Subject := ⟨"", "", 0⟩
def defaultRoom : Room := ⟨"", ""⟩

/-! ## The time grid builder (`_generate_time_slots`) -/

/-- The body of the slot-generation `while` loop, with explicit fuel.
`none` means the fuel ran out (the Python loop would still be running).
Arguments: breakfast window `[bs, be)` (active only when `hasB`), lunch window
`[ls, le)`, lesson duration, break duration, day end in minutes. -/
def slotLoop (hasB : Bool) (bs be ls le ldur bdur em : Int) :
    Nat → Int → Option (List (Int × Int))
  | 0, _ => none
  | fuel + 1, cur =>
    if cur + ldur ≤ em then
      if hasB = true ∧ cur < be ∧ cur + ldur > bs then
        slotLoop hasB bs be ls le ldur bdur em fuel be
      else if cur < le ∧ cur + ldur > ls then
        slotLoop hasB bs be ls le ldur bdur em fuel le
      else
        match slotLoop hasB bs be ls le ldur bdur em fuel (cur + ldur + bdur) with
        | none => none
        | some rest => some ((cur, cur + ldur) :: rest)
    else some []

/-- Outcome of the `try` body of `_generate_time_slots`. -/
inductive SlotsOutcome where
  | ok (l : List (Int × Int))
  | exc
  | hang
deriving DecidableEq

/-- The `try` body of `_generate_time_slots`: parse the configured times (the
breakfast start is parsed only when `hasBreakfastBreak`), then run the slot
loop from `startTime`.  A parse failure is the exception the handler catches. -/
def slotsCore (fuel : Nat) (startT endT : String) (ldur bdur : Int) (hasB : Bool)
    (bStart : String) (bDur : Int) (lStart : String) (lDur : Int) : SlotsOutcome :=
  match timeToMinutes startT, timeToMinutes endT with
  | some sm, some em =>
    match (if hasB then (timeToMinutes bStart).map (fun x => (x, x + bDur)) else some (-1, -1)) with
    | none => .exc
    | some (bs, be) =>
      match timeToMinutes lStart with
      | none => .exc
      | some ls =>
        match slotLoop hasB bs be ls (ls + lDur) ldur bdur em fuel sm with
        | none => .hang
        | some l => .ok l
  | _, _ => .exc

/-- The hard-coded fallback slot list returned when the `try` body raises. -/
def fallbackSlots : List (String × String) :=
  [("08:00", "09:00"), ("09:15", "10:15"), ("10:30", "11:30"),
   ("11:45", "12:45"), ("13:30", "14:30"), ("14:45", "15:45")]

/-- Model of `_generate_time_slots`: stringify the loop's slots; on an exception return
the fallback list; `none` models a non-terminating loop. -/
def timeSlotsFor (fuel : Nat) (startT endT : String) (ldur bdur : Int) (hasB : Bool)
    (bStart : String) (bDur : Int) (lStart : String) (lDur : Int) :
    Option (List (String × String)) :=
  match slotsCore fuel startT endT ldur bdur hasB bStart bDur lStart lDur with
  | .ok l => some (l.map (fun p => (minutesToTime p.1, minutesToTime p.2)))
  | .exc => some fallbackSlots
  | .hang => none

/-! ## Scheduler state (`TimetableScheduler.__init__`) -/

/-- Result of running a piece of Python code: a value, a raised exception, or
no return within the modelled fuel. -/
inductive PyResult (α : Type) where
  | ok (a : α)
  | exc
  | hang
deriving DecidableEq

/-- The scheduler object after a successful `__init__`: the checked settings,
the entity lists and the generated time grid. -/
structure SchedState where
  startTime : String
  endTime : String
  lessonDuration : Int
  breakDuration : Int
  hasBreakfastBreak : Bool
  breakfastBreakStartTime : String
  breakfastBreakDuration : Int
  lunchBreakStartTime : String
  lunchBreakDuration : Int
  lessonsPerDay : Int
  daysPerWeek : Int
  days : List String
  useRoomConstraints : Bool
  maxSubjectsPerDay : Int
  minSubjectsPerDay : Option Int
  exactLessonsPerDay : Option Int
  freePeriods : List FreePeriod
  prefs : Prefs
  teachers : List Teacher
  classes : List SchoolClass
  subjects : List Subject
  rooms : List Room
  timeSlots : List (String × String)
deriving DecidableEq

/-- True when one of the thirteen required settings is absent, in which case
the constructor raises `ValueError`. -/
def missingAny (s : RawSettings) : Bool :=
  s.startTime.isNone || s.endTime.isNone || s.lessonDuration.isNone ||
  s.breakDuration.isNone || s.hasBreakfastBreak.isNone ||
  s.breakfastBreakStartTime.isNone || s.breakfastBreakDuration.isNone ||
  s.lunchBreakDuration.isNone || s.lunchBreakStartTime.isNone ||
  s.lessonsPerDay.isNone || s.daysPerWeek.isNone || s.workingDays.isNone ||
  s.useRoomConstraints.isNone

/-- The scheduler state before the time grid is generated (all settings read,
`maxSubjectsPerDay` defaulted from `lessonsPerDay` and then `6`). -/
def preState (d : InputData) (s : RawSettings) : SchedState :=
  { startTime := s.startTime.getD ""
    endTime := s.endTime.getD ""
    lessonDuration := s.lessonDuration.getD 0
    breakDuration := s.breakDuration.getD 0
    hasBreakfastBreak := s.hasBreakfastBreak.getD false
    breakfastBreakStartTime := s.breakfastBreakStartTime.getD ""
    breakfastBreakDuration := s.breakfastBreakDuration.getD 0
    lunchBreakStartTime := s.lunchBreakStartTime.getD ""
    lunchBreakDuration := s.lunchBreakDuration.getD 0
    lessonsPerDay := s.lessonsPerDay.getD 0
    daysPerWeek := s.daysPerWeek.getD 0
    days := s.workingDays.getD []
    useRoomConstraints := s.useRoomConstraints.getD false
    maxSubjectsPerDay := s.maxSubjectsPerDay.getD (s.lessonsPerDay.getD 6)
    minSubjectsPerDay := s.minSubjectsPerDay
    exactLessonsPerDay := s.exactLessonsPerDay
    freePeriods := s.freePeriods
    prefs := s.schedulingPreferences
    teachers := d.teachers
    classes := d.classes
    subjects := d.subjects
    rooms := d.rooms
    timeSlots := [] }

/-- Shorthand: `slotsCore` applied to the settings stored in a scheduler state. -/
def slotsCoreSt (fuel : Nat) (st : SchedState) : SlotsOutcome :=
  slotsCore fuel st.startTime st.endTime st.lessonDuration st.breakDuration
    st.hasBreakfastBreak st.breakfastBreakStartTime st.breakfastBreakDuration
    st.lunchBreakStartTime st.lunchBreakDuration

/-- Model of `TimetableScheduler.__init__`: reject missing settings, then generate the
time grid (possibly falling back on an internal exception) and record it. -/
def initScheduler (fuel : Nat) (d : InputData) : PyResult SchedState :=
  match d.school_settings with
  | none => .exc
  | some s =>
    if missingAny s = true then .exc
    else
      let st0 := preState d s
      match slotsCoreSt fuel st0 with
      | .hang => .hang
      | .exc => .ok { st0 with timeSlots := fallbackSlots }
      | .ok l => .ok { st0 with timeSlots := l.map (fun p => (minutesToTime p.1, minutesToTime p.2)) }

/-- True when constraint assembly would raise: `_add_break_constraints` parses
the breakfast and lunch start times unconditionally, and
`_add_free_period_constraints` parses every non-empty free-period start time.
(The time-slot strings themselves are always produced by `minutes_to_time` or
the fallback list, hence always parse.) -/
def buildRaises (st : SchedState) : Bool :=
  (timeToMinutes st.breakfastBreakStartTime).isNone ||
  (timeToMinutes st.lunchBreakStartTime).isNone ||
  st.freePeriods.any (fun p => p.startTime ≠ "" && (timeToMinutes p.startTime).isNone)

/-! ## The input validator (`validate_constraints`) -/

/-- The "not enough rooms" issue string. -/
def roomsCountMsg (d : InputData) : String :=
  "Not enough rooms provided (" ++ toString d.rooms.length ++
  ") for the number of classes (" ++ toString d.classes.length ++ ")."

/-- Falsiness of an optional string (`not settings.get(k)`). -/
def optStrFalsy (o : Option String) : Bool :=
  match o with
  | none => true
  | some t => t = ""

/-- Falsiness of an optional integer (`not settings.get(k)`). -/
def optIntFalsy (o : Option Int) : Bool :=
  match o with
  | none => true
  | some v => v = 0

/-- The issue list built by `validate_constraints`, in emission order. -/
def validateIssues (d : InputData) : List String :=
  (match d.school_settings with
   | none => ["School settings are missing."]
   | some _ => []) ++
  (if d.teachers.isEmpty then ["No teachers provided."] else []) ++
  (if d.classes.isEmpty then ["No classes provided."] else []) ++
  (if d.subjects.isEmpty then ["No subjects provided."] else []) ++
  (if ((d.school_settings.bind (·.useRoomConstraints)).getD true) && d.rooms.isEmpty then
    ["No rooms provided (required when room constraints are enabled)."] else []) ++
  (match d.school_settings with
   | none => []
   | some s =>
     (if optStrFalsy s.startTime then ["School start time is missing."] else []) ++
     (if optStrFalsy s.endTime then ["School end time is missing."] else []) ++
     (if optIntFalsy s.lessonDuration then ["Lesson duration is missing."] else []) ++
     (match s.maxSubjectsPerDay with
      | none => []
      | some v => if v < 0 then ["Maximum subjects per day must be a positive integer."] else []) ++
     (s.freePeriods.enum.flatMap (fun pr =>
       (if pr.2.name = "" then
         ["Free period at index " ++ toString pr.1 ++ " is missing a name."] else []) ++
       (if pr.2.startTime = "" then
         ["Free period '" ++ pr.2.name ++ "' is missing a start time."] else []) ++
       (if pr.2.days.isEmpty then
         ["Free period '" ++ pr.2.name ++ "' has no assigned days."] else []) ++
       (if pr.2.forClasses.isEmpty then
         ["Free period '" ++ pr.2.name ++ "' has no assigned classes."] else []))) ++
     (match timeToMinutes (s.startTime.getD "08:00"), timeToMinutes (s.endTime.getD "15:00") with
      | some a, some b =>
          if b ≤ a then ["School end time must be after start time."] else []
      | _, _ => ["Invalid time format in school settings."])) ++
  (d.teachers.enum.flatMap (fun pr =>
    (if pr.2.id = "" then ["Teacher at index " ++ toString pr.1 ++ " is missing an ID."] else []) ++
    (if pr.2.subjects.isEmpty then
      ["Teacher '" ++ pr.2.name ++ "' has no assigned subjects."] else []))) ++
  (d.classes.enum.flatMap (fun pr =>
    (if pr.2.id = "" then ["Class at index " ++ toString pr.1 ++ " is missing an ID."] else []) ++
    (if pr.2.requiredSubjects.isEmpty then
      ["Class '" ++ pr.2.name ++ "' has no required subjects."] else []))) ++
  (d.subjects.enum.flatMap (fun pr =>
    (if pr.2.id = "" then ["Subject at index " ++ toString pr.1 ++ " is missing an ID."] else []) ++
    (if pr.2.hoursPerWeek = 0 then
      ["Subject '" ++ pr.2.name ++ "' has no specified hours per week."] else []))) ++
  (d.classes.flatMap (fun cls =>
    (cls.requiredSubjects.filter
      (fun sid => !((d.subjects.filter (fun sub => sub.id ≠ "")).map (·.id)).contains sid)).map
      (fun sid => "Class '" ++ cls.name ++ "' requires non-existent subject ID: " ++ sid))) ++
  (d.teachers.flatMap (fun t =>
    (t.subjects.filter
      (fun sid => !((d.subjects.filter (fun sub => sub.id ≠ "")).map (·.id)).contains sid)).map
      (fun sid => "Teacher '" ++ t.name ++ "' is assigned non-existent subject ID: " ++ sid))) ++
  (if d.rooms.length < d.classes.length then [roomsCountMsg d] else [])

/-! ## Index maps and decision-variable keys -/

/-- A decision-variable key `(c, s, t, r, d, ts)` of `assignment_vars`. -/
structure Key where
  c : Nat
  s : Nat
  t : Nat
  r : Nat
  d : Nat
  ts : Nat
deriving DecidableEq

/-- The index a Python dict comprehension `{x: i for i, x in enumerate(l)}`
associates to `x`: the index of the LAST occurrence of `x` in `l` (later
insertions overwrite earlier ones); `none` when `x` is absent. -/
def dictIndexAux {α : Type} [DecidableEq α] (x : α) : List α → Nat → Option Nat
  | [], _ => none
  | a :: rest, i =>
    match dictIndexAux x rest (i + 1) with
    | some j => some j
    | none => if a = x then some i else none

/-- See `dictIndexAux`. -/
def dictIndex {α : Type} [DecidableEq α] (l : List α) (x : α) : Option Nat :=
  dictIndexAux x l 0

/-- Indices of the teachers able to teach subject `sid`
(`[t for t, teacher in enumerate(self.teachers) if s_id in teacher['subjects']]`). -/
def validTeachers (st : SchedState) (sid : String) : List Nat :=
  (List.range st.teachers.length).filter
    (fun t => (st.teachers.getD t defaultTeacher).subjects.contains sid)

/-- The keys `_create_variables` creates for one demanded pair `(c, s)` given
the valid-teacher indices: all rooms when room constraints are on, the single
pseudo-room `0` otherwise, crossed with all days and slots. -/
def keysFor (st : SchedState) (c s : Nat) (validT : List Nat) : List Key :=
  if st.useRoomConstraints then
    (List.range st.rooms.length).flatMap (fun r =>
      (List.range st.days.length).flatMap (fun d =>
        (List.range st.timeSlots.length).flatMap (fun ts =>
          validT.map (fun t => ⟨c, s, t, r, d, ts⟩))))
  else
    (List.range st.days.length).flatMap (fun d =>
      (List.range st.timeSlots.length).flatMap (fun ts =>
        validT.map (fun t => ⟨c, s, t, 0, d, ts⟩)))

/-- All keys produced by `_create_variables`, before dict deduplication:
for every class, every required subject present in the subject index with a
non-empty valid-teacher set. -/
def varKeysRaw (st : SchedState) : List Key :=
  st.classes.enum.flatMap (fun pr =>
    pr.2.requiredSubjects.flatMap (fun sid =>
      match dictIndex (st.subjects.map (·.id)) sid with
      | none => []
      | some s =>
        let validT := validTeachers st sid
        if validT.isEmpty then [] else keysFor st pr.1 s validT))

/-- The key set of `assignment_vars` (each key held once, as in the dict). -/
def varKeys (st : SchedState) : List Key :=
  (varKeysRaw st).dedup

/-- Number of keys in `l` whose decision variable is 1 under `val`
(the value of `sum(...)` over the collected variables). -/
def countVal (l : List Key) (val : Key → Bool) : Nat :=
  (l.filter val).length

/-- The guard the constraint-collection loops impose on a key: the loops run
`t`, `r`, `d`, `ts` over `range(len(...))`, so a key with `r = 0` is only
found when the rooms list is non-empty. -/
def inLoopRange (st : SchedState) (k : Key) : Bool :=
  decide (k.c < st.classes.length) && decide (k.s < st.subjects.length) &&
  decide (k.t < st.teachers.length) && decide (k.r < st.rooms.length) &&
  decide (k.d < st.days.length) && decide (k.ts < st.timeSlots.length)

/-- The variables `_add_subject_hours_constraint` collects for a pair `(c, s)`. -/
def pairVars (st : SchedState) (c s : Nat) : List Key :=
  (varKeys st).filter (fun k => decide (k.c = c) && decide (k.s = s) && inLoopRange st k)

/-- The variables collected for a pair `(c, s)` and a fixed teacher `t`. -/
def pairTVars (st : SchedState) (c s t : Nat) : List Key :=
  (pairVars st c s).filter (fun k => decide (k.t = t))

/-- The variables collected for a pair `(c, s)` on a fixed day `d`. -/
def pairDayVars (st : SchedState) (c s d : Nat) : List Key :=
  (pairVars st c s).filter (fun k => decide (k.d = d))

/-- The variables collected for a pair `(c, s)` at a fixed `(d, ts)`. -/
def pairDayTsVars (st : SchedState) (c s d ts : Nat) : List Key :=
  (pairVars st c s).filter (fun k => decide (k.d = d) && decide (k.ts = ts))

/-- The variables collected for a teacher at a fixed `(t, d, ts)`. -/
def teacherSlotVars (st : SchedState) (t d ts : Nat) : List Key :=
  (varKeys st).filter (fun k =>
    decide (k.t = t) && decide (k.d = d) && decide (k.ts = ts) && inLoopRange st k)

/-- The variables collected for a teacher on a day. -/
def teacherDayVars (st : SchedState) (t d : Nat) : List Key :=
  (varKeys st).filter (fun k => decide (k.t = t) && decide (k.d = d) && inLoopRange st k)

/-- The variables collected for a teacher over the whole week. -/
def teacherWeekVars (st : SchedState) (t : Nat) : List Key :=
  (varKeys st).filter (fun k => decide (k.t = t) && inLoopRange st k)

/-- The variables collected for a class at a fixed `(c, d, ts)`. -/
def classSlotVars (st : SchedState) (c d ts : Nat) : List Key :=
  (varKeys st).filter (fun k =>
    decide (k.c = c) && decide (k.d = d) && decide (k.ts = ts) && inLoopRange st k)

/-- The variables collected for a room at a fixed `(r, d, ts)`. -/
def roomSlotVars (st : SchedState) (r d ts : Nat) : List Key :=
  (varKeys st).filter (fun k =>
    decide (k.r = r) && decide (k.d = d) && decide (k.ts = ts) && inLoopRange st k)

/-- The variables collected at a fixed `(d, ts)` over all classes, subjects,
teachers and rooms (used by break and free-period forcing). -/
def dayTsVars (st : SchedState) (d ts : Nat) : List Key :=
  (varKeys st).filter (fun k => decide (k.d = d) && decide (k.ts = ts) && inLoopRange st k)

/-- The variables collected at a fixed `(c, d, ts)` for one class (free-period
forcing). -/
def classDayTsVars (st : SchedState) (c d ts : Nat) : List Key :=
  (varKeys st).filter (fun k =>
    decide (k.c = c) && decide (k.d = d) && decide (k.ts = ts) && inLoopRange st k)

/-- The variables collected at a fixed `(c, s, d)` (daily-lessons and
no-repeat families iterate subjects by dense index). -/
def classDaySubjVars (st : SchedState) (c d s : Nat) : List Key :=
  (varKeys st).filter (fun k =>
    decide (k.c = c) && decide (k.s = s) && decide (k.d = d) && inLoopRange st k)

/-- The variables collected at a fixed `(c, s, d, ts)`. -/
def classSubjSlotVars (st : SchedState) (c s d ts : Nat) : List Key :=
  (varKeys st).filter (fun k =>
    decide (k.c = c) && decide (k.s = s) && decide (k.d = d) && decide (k.ts = ts) &&
    inLoopRange st k)

/-- All variables of a class on a day (the `exactLessonsPerDay` sum). -/
def classDayVars (st : SchedState) (c d : Nat) : List Key :=
  (varKeys st).filter (fun k => decide (k.c = c) && decide (k.d = d) && inLoopRange st k)

/-! ## Solver oracle, schedules, extraction -/

/-- CP-SAT statuses as the driver distinguishes them. -/
inductive SolverStatus where
  | optimal
  | feasible
  | infeasible
  | unknown
deriving DecidableEq

/-- Test `status in (cp_model.OPTIMAL, cp_model.FEASIBLE)`. -/
def solvedStatus (s : SolverStatus) : Bool :=
  match s with
  | .optimal => true
  | .feasible => true
  | _ => false

/-- External nondeterminism of one `generate_schedule` run: the solver outcome
(status and variable valuation) and the random draws (`uuid4` strings, the
`np.random.choice` indices for teachers and rooms, the slot shuffle). -/
structure Oracle where
  status : SolverStatus
  val : Key → Bool
  uuid : Nat → String
  tpick : Nat → Nat
  rpick : Nat → Nat
  shuffle : List (String × (String × String)) → List (String × (String × String))

/-- One emitted schedule entry. -/
structure Entry where
  id : String
  day : String
  startTime : String
  endTime : String
  classId : String
  subjectId : String
  teacherId : String
  roomId : String
  roomName : Option String
deriving DecidableEq

structure Schedule where
  scheduleId : String
  entries : List Entry
deriving DecidableEq

def defaultSchedule : Schedule := ⟨"", []⟩

/-- The entry `extract_solution` emits for a key set to 1. -/
def entryOf (st : SchedState) (idStr : String) (k : Key) : Entry :=
  let classId := (st.classes.getD k.c defaultClass).id
  { id := idStr
    day := st.days.getD k.d ""
    startTime := (st.timeSlots.getD k.ts ("", "")).1
    endTime := (st.timeSlots.getD k.ts ("", "")).2
    classId := classId
    subjectId := (st.subjects.getD k.s defaultSubject).id
    teacherId := (st.teachers.getD k.t defaultTeacher).id
    roomId := if st.useRoomConstraints then (st.rooms.getD k.r defaultRoom).id else classId
    roomName :=
      if st.useRoomConstraints then none
      else some ("Room " ++
        (match st.classes.find? (fun cls => cls.id = classId) with
         | some cls => cls.name
         | none => "Class " ++ toString k.c)) }

/-- Emit entries for the given keys, drawing a fresh uuid for each. -/
def extractEntries (st : SchedState) (uuid : Nat → String) : Nat → List Key → List Entry
  | _, [] => []
  | n, k :: ks => entryOf st (uuid n) k :: extractEntries st uuid (n + 1) ks

/-- Model of `extract_solution` on a solved status, when no lookup raises: one
entry per key whose decision variable is 1, in `assignment_vars` iteration
order. -/
def extractSolution (st : SchedState) (val : Key → Bool) (uuid : Nat → String) : Schedule :=
  { scheduleId := "generated-schedule-" ++ uuid 0
    entries := extractEntries st uuid 1 ((varKeys st).filter val) }

/-- True when `extract_solution` raises: it evaluates `self.room_ids[r]`
unconditionally for every selected key, so a key whose room index is not an
index of the rooms list (with room constraints off the keys carry the
pseudo-room 0, which is absent exactly when the rooms list is empty) raises
`KeyError` and the whole extraction aborts. -/
def extractRaises (st : SchedState) (val : Key → Bool) : Bool :=
  (varKeys st).any (fun k => val k && decide (st.rooms.length ≤ k.r))

/-! ## The fallback greedy generator (`_generate_mock_schedule`) -/

/-- Model of `np.random.choice(l)` driven by an oracle index (always a member when the
list is non-empty, as for the numpy draw). -/
def choiceD {α : Type} (l : List α) (dflt : α) (i : Nat) : α :=
  l.getD (i % l.length) dflt

/-- Dict insertion `d[k] = v`: an existing key keeps its position and gets the
new value; a new key is appended. -/
def dictInsert {κ ν : Type} [DecidableEq κ] (l : List (κ × ν)) (k : κ) (v : ν) :
    List (κ × ν) :=
  if l.any (fun p => p.1 = k) then
    l.map (fun p => if p.1 = k then (k, v) else p)
  else l ++ [(k, v)]

/-- First stage of the mock generator: for every class and required subject
present in the subject index with at least one valid teacher, randomly pick a
teacher.  The counter `n` numbers the `np.random.choice` calls. -/
def assignedTeachersAux (st : SchedState) (tpick : Nat → Nat) :
    List (String × String) → Nat → List ((String × String) × Teacher) →
    List ((String × String) × Teacher)
  | [], _, acc => acc
  | (cid, sid) :: rest, n, acc =>
    if (dictIndex (st.subjects.map (·.id)) sid).isSome then
      let vt := st.teachers.filter (fun t => t.subjects.contains sid)
      if vt.isEmpty then assignedTeachersAux st tpick rest n acc
      else
        assignedTeachersAux st tpick rest (n + 1)
          (dictInsert acc (cid, sid) (choiceD vt defaultTeacher (tpick n)))
    else assignedTeachersAux st tpick rest n acc

/-- The `(class_id, subject_id)` pairs the mock generator iterates. -/
def mockPairList (st : SchedState) : List (String × String) :=
  st.classes.flatMap (fun cls => cls.requiredSubjects.map (fun sid => (cls.id, sid)))

/-- The `assigned_teachers` dict of the mock generator. -/
def assignedTeachers (st : SchedState) (tpick : Nat → Nat) :
    List ((String × String) × Teacher) :=
  assignedTeachersAux st tpick (mockPairList st) 0 []

/-- The `(day, time_slot)` pairs in grid order, before shuffling. -/
def availSlots (st : SchedState) : List (String × (String × String)) :=
  st.days.flatMap (fun day => st.timeSlots.map (fun slot => (day, slot)))

/-- The local validity check of the mock generator: the candidate
`(day, slot, class, subject, teacher)` conflicts with no already-emitted entry
(teacher busy, class busy, subject already used that day, or same subject in an
adjacent slot of the grid). -/
def validSlot (st : SchedState) (entries : List Entry) (day : String)
    (slot : String × String) (cid sid tid : String) : Bool :=
  entries.all (fun e =>
    !(e.day = day && e.startTime = slot.1 && e.teacherId = tid) &&
    !(e.day = day && e.startTime = slot.1 && e.classId = cid) &&
    !(e.day = day && e.classId = cid && e.subjectId = sid) &&
    (match st.timeSlots.findIdx? (fun ts => ts.1 = slot.1) with
     | none => true
     | some i =>
       (if i = 0 then true
        else
          !(e.day = day &&
            e.startTime = (st.timeSlots.getD (i - 1) ("", "")).1 &&
            e.classId = cid && e.subjectId = sid)) &&
       (if i + 1 < st.timeSlots.length then
          !(e.day = day &&
            e.startTime = (st.timeSlots.getD (i + 1) ("", "")).1 &&
            e.classId = cid && e.subjectId = sid)
        else true)))

/-- Scan the (shuffled) slots for one `(class, subject, teacher)` demand,
emitting an entry into each accepted slot until the remaining hours reach 0.
`idx` is the position in the scanned list (used for the synthetic room id). -/
def assignHours (st : SchedState) (o : Oracle) (cid sid : String) (t : Teacher) :
    List (String × (String × String)) → Nat → Int → List Entry → List Entry
  | [], _, _, entries => entries
  | (day, slot) :: rest, idx, hours, entries =>
    if hours ≤ 0 then entries
    else if validSlot st entries day slot cid sid t.id then
      assignHours st o cid sid t rest (idx + 1) (hours - 1)
        (entries ++
          [{ id := o.uuid (entries.length + 1)
             day := day
             startTime := slot.1
             endTime := slot.2
             classId := cid
             subjectId := sid
             teacherId := t.id
             roomId :=
               if st.rooms.isEmpty then "room-" ++ toString idx
               else (choiceD st.rooms defaultRoom (o.rpick entries.length)).id
             roomName := none }])
    else assignHours st o cid sid t rest (idx + 1) hours entries

/-- Second stage of the mock generator: for each assigned pair look up the
subject (first match) and the class, and greedily place `hoursPerWeek` entries. -/
def mockAssignAll (st : SchedState) (o : Oracle)
    (pairs : List ((String × String) × Teacher)) : List Entry :=
  pairs.foldl
    (fun entries pr =>
      match st.subjects.find? (fun s => s.id = pr.1.2) with
      | none => entries
      | some subj =>
        if subj.hoursPerWeek ≤ 0 then entries
        else
          match st.classes.find? (fun c => c.id = pr.1.1) with
          | none => entries
          | some _ =>
            assignHours st o pr.1.1 pr.1.2 pr.2 (o.shuffle (availSlots st)) 0
              subj.hoursPerWeek entries)
    []

/-- Model of `_generate_mock_schedule`. -/
def mockSchedule (st : SchedState) (o : Oracle) : Schedule :=
  { scheduleId := "mock-schedule-" ++ o.uuid 0
    entries := mockAssignAll st o (assignedTeachers st o.tpick) }

/-! ## `generate_schedule` -/

/-- The error object built by the exception handler. -/
def errorSchedule (u : String) : Schedule :=
  { scheduleId := "error-schedule-" ++ u, entries := [] }

/-- The body of the `try` block of `generate_schedule`: construct the
scheduler, build the model and solve (raising if constraint assembly parses a
malformed time), then extract (which may itself raise on the room-id lookup)
or fall back according to the status. -/
def generateCore (fuel : Nat) (d : InputData) (o : Oracle) : PyResult Schedule :=
  match initScheduler fuel d with
  | .hang => .hang
  | .exc => .exc
  | .ok st =>
    if buildRaises st = true then .exc
    else if solvedStatus o.status = true then
      if extractRaises st o.val = true then .exc
      else .ok (extractSolution st o.val o.uuid)
    else .ok (mockSchedule st o)

/-- Model of `generate_schedule`: the `except` handler converts any exception into the
error schedule with an empty entry list. -/
def generateSchedule (fuel : Nat) (d : InputData) (o : Oracle) : PyResult Schedule :=
  match generateCore fuel d o with
  | .hang => .hang
  | .exc => .ok (errorSchedule (o.uuid 0))
  | .ok s => .ok s

/-! ## The constraint model (`_add_all_constraints`)

A solver outcome with status OPTIMAL or FEASIBLE satisfies every constraint
added to the CP model.  Each family below mirrors one `_add_*` method,
including its guards (constraints are only added when the collected variable
list is non-empty, exactly as in the source).  The auxiliary booleans the code
creates (`teacher_assigned_*`, `*_taught`, `subject_*_taught_*`) are
existentially quantified in `satisfiesConstraints`.  The active/gap booleans of
the objective are omitted: they are fully determined by the assignment and
never constrain it. -/

/-- Family 1: `_add_subject_hours_constraint`. -/
def f1B (st : SchedState) (val : Key → Bool) : Bool :=
  (List.range st.classes.length).all (fun c =>
    ((st.classes.getD c defaultClass).requiredSubjects).all (fun sid =>
      match dictIndex (st.subjects.map (·.id)) sid with
      | none => true
      | some s =>
        let h := (st.subjects.getD s defaultSubject).hoursPerWeek
        if h ≤ 0 then true
        else
          let l := pairVars st c s
          l.isEmpty || decide ((countVal l val : Int) = h)))

/-- Family 2: `_add_teacher_consistency_constraint` (with the picked-teacher
booleans `pick`). -/
def f2B (st : SchedState) (val : Key → Bool) (pick : Nat → Nat → Nat → Bool) : Bool :=
  (List.range st.classes.length).all (fun c =>
    ((st.classes.getD c defaultClass).requiredSubjects).all (fun sid =>
      match dictIndex (st.subjects.map (·.id)) sid with
      | none => true
      | some s =>
        let validT := validTeachers st sid
        if validT.isEmpty then true
        else
          decide ((validT.filter (fun t => pick c s t)).length = 1) &&
          validT.all (fun t =>
            let l := pairTVars st c s t
            l.isEmpty ||
            ((pick c s t == l.any val) &&
             (!(pick c s t) ||
              validT.all (fun u =>
                if u = t then true
                else (pairTVars st c s u).all (fun k => !(val k)))))) &&
          (let total := pairVars st c s
           total.isEmpty ||
           decide ((countVal total val : Int) =
             (st.subjects.getD s defaultSubject).hoursPerWeek))))

/-- Family 3: `_add_teacher_availability_constraints` (slot exclusivity and
daily/weekly caps). -/
def f3B (st : SchedState) (val : Key → Bool) : Bool :=
  ((List.range st.teachers.length).all (fun t =>
    (List.range st.days.length).all (fun d =>
      (List.range st.timeSlots.length).all (fun ts =>
        let l := teacherSlotVars st t d ts
        l.isEmpty || decide (countVal l val ≤ 1))))) &&
  ((List.range st.teachers.length).all (fun t =>
    (List.range st.days.length).all (fun d =>
      let l := teacherDayVars st t d
      l.isEmpty ||
      decide ((countVal l val : Int) ≤
        ((st.teachers.getD t defaultTeacher).maxHoursPerDay.getD 5))))) &&
  ((List.range st.teachers.length).all (fun t =>
    let l := teacherWeekVars st t
    l.isEmpty ||
    decide ((countVal l val : Int) ≤
      ((st.teachers.getD t defaultTeacher).maxHoursPerWeek.getD 20))))

/-- Family 4: `_add_class_constraints`. -/
def f4B (st : SchedState) (val : Key → Bool) : Bool :=
  (List.range st.classes.length).all (fun c =>
    (List.range st.days.length).all (fun d =>
      (List.range st.timeSlots.length).all (fun ts =>
        let l := classSlotVars st c d ts
        l.isEmpty || decide (countVal l val ≤ 1))))

/-- Family 5: `_add_room_constraints` (only when room constraints are on). -/
def f5B (st : SchedState) (val : Key → Bool) : Bool :=
  if st.useRoomConstraints then
    (List.range st.rooms.length).all (fun r =>
      (List.range st.days.length).all (fun d =>
        (List.range st.timeSlots.length).all (fun ts =>
          let l := roomSlotVars st r d ts
          l.isEmpty || decide (countVal l val ≤ 1))))
  else true

/-- Family 6: `_add_break_constraints`: every variable of a slot that overlaps
the breakfast window (when enabled) or the lunch window is forced to 0. -/
def f6B (st : SchedState) (val : Key → Bool) : Bool :=
  match timeToMinutes st.breakfastBreakStartTime, timeToMinutes st.lunchBreakStartTime with
  | some bs, some ls =>
    let be := bs + st.breakfastBreakDuration
    let le := ls + st.lunchBreakDuration
    (List.range st.days.length).all (fun d =>
      st.timeSlots.enum.all (fun pr =>
        match timeToMinutes pr.2.1, timeToMinutes pr.2.2 with
        | some a, some b =>
          (if st.hasBreakfastBreak && decide (a < be) && decide (b > bs) then
            (dayTsVars st d pr.1).all (fun k => !(val k))
          else true) &&
          (if decide (a < le) && decide (b > ls) then
            (dayTsVars st d pr.1).all (fun k => !(val k))
          else true)
        | _, _ => true))
  | _, _ => true

/-- Family 7: `_add_free_period_constraints`. -/
def f7B (st : SchedState) (val : Key → Bool) : Bool :=
  st.freePeriods.all (fun p =>
    if p.startTime = "" then true
    else
      match timeToMinutes p.startTime with
      | none => true
      | some ps =>
        let pe := ps + p.duration.getD 60
        st.days.enum.all (fun dpr =>
          if p.days.contains dpr.2 || p.days.contains "all" then
            st.timeSlots.enum.all (fun spr =>
              match timeToMinutes spr.2.1, timeToMinutes spr.2.2 with
              | some a, some b =>
                if decide (a < pe) && decide (b > ps) then
                  st.classes.enum.all (fun cpr =>
                    if p.forClasses.contains "all" || p.forClasses.contains cpr.2.id then
                      (classDayTsVars st cpr.1 dpr.1 spr.1).all (fun k => !(val k))
                    else true)
                else true
              | _, _ => true)
          else true))

/-- Family 8: `_add_daily_lessons_constraints` (with the per-day
subject-taught booleans `taught`). -/
def f8B (st : SchedState) (val : Key → Bool) (taught : Nat → Nat → Nat → Bool) : Bool :=
  (List.range st.classes.length).all (fun c =>
    (List.range st.days.length).all (fun d =>
      ((List.range st.subjects.length).all (fun s =>
        let l := classDaySubjVars st c d s
        l.isEmpty || (taught c d s == l.any val))) &&
      (let cds := (List.range st.subjects.length).filter
          (fun s => !(classDaySubjVars st c d s).isEmpty)
       cds.isEmpty ||
       ((match st.minSubjectsPerDay with
         | none => true
         | some m => decide ((((cds.filter (fun s => taught c d s)).length : Int)) ≥ m)) &&
        decide ((((cds.filter (fun s => taught c d s)).length : Int)) ≤ st.maxSubjectsPerDay))) &&
      (match st.exactLessonsPerDay with
       | none => true
       | some ex =>
         let l := classDayVars st c d
         l.isEmpty || decide ((countVal l val : Int) = ex))))

/-- Family 9: `_add_no_repeat_subject_constraint`, first half (with the
per-day taught booleans `taughtB`): each subject at most once per class-day. -/
def f9B (st : SchedState) (val : Key → Bool) (taughtB : Nat → Nat → Nat → Bool) : Bool :=
  (List.range st.classes.length).all (fun c =>
    (List.range st.days.length).all (fun d =>
      (List.range st.subjects.length).all (fun s =>
        if (st.subjects.getD s defaultSubject).id = "" then true
        else
          let l := classDaySubjVars st c d s
          l.isEmpty ||
          ((taughtB c d s == l.any val) && decide (countVal l val ≤ 1)))))

/-- Family 10: `_add_no_repeat_subject_constraint`, second half: no two
variables of the same class and subject in consecutive slots. -/
def f10B (st : SchedState) (val : Key → Bool) : Bool :=
  (List.range st.classes.length).all (fun c =>
    (List.range st.days.length).all (fun d =>
      (List.range (st.timeSlots.length - 1)).all (fun ts =>
        (List.range st.subjects.length).all (fun s =>
          if (st.subjects.getD s defaultSubject).id = "" then true
          else
            (classSubjSlotVars st c s d ts).all (fun k1 =>
              (classSubjSlotVars st c s d (ts + 1)).all (fun k2 =>
                !(val k1 && val k2)))))))

/-- The `(day index, slot index)` pairs of a teacher's availability that align
with the generated grid (`_add_teacher_availability_schedule_constraint`). -/
def availSet (st : SchedState) (t : Teacher) : List (Nat × Nat) :=
  t.availability.flatMap (fun av =>
    match dictIndex st.days av.day with
    | none => []
    | some dIdx =>
      av.timeSlots.filterMap (fun sl =>
        (dictIndex st.timeSlots (sl.startTime, sl.endTime)).map (fun tsIdx => (dIdx, tsIdx))))

/-- Family 11: `_add_teacher_availability_schedule_constraint`: variables of a
teacher with a non-empty availability outside its aligned windows are 0. -/
def f11B (st : SchedState) (val : Key → Bool) : Bool :=
  st.teachers.enum.all (fun tpr =>
    if tpr.2.availability.isEmpty then true
    else
      (varKeys st).all (fun k =>
        if decide (k.t = tpr.1) && inLoopRange st k &&
           !((availSet st tpr.2).contains (k.d, k.ts)) then
          !(val k)
        else true))

/-- Balanced-distribution family: `_add_balanced_distribution_constraint`. -/
def fBalB (st : SchedState) (val : Key → Bool) : Bool :=
  if st.prefs.balanceSubjectsAcrossDays.getD true then
    (List.range st.classes.length).all (fun c =>
      ((st.classes.getD c defaultClass).requiredSubjects).all (fun sid =>
        match dictIndex (st.subjects.map (·.id)) sid with
        | none => true
        | some s =>
          let h := (st.subjects.getD s defaultSubject).hoursPerWeek
          if h < 2 then true
          else
            (List.range st.days.length).all (fun d =>
              let l := pairDayVars st c s d
              l.isEmpty || decide ((countVal l val : Int) ≤ min 2 (h - 1)))))
  else true

/-- All constraints of the CP model at once, given the auxiliary booleans. -/
def feasibleB (st : SchedState) (val : Key → Bool)
    (pick taught taughtB : Nat → Nat → Nat → Bool) : Bool :=
  f1B st val && f2B st val pick && f3B st val && f4B st val && f5B st val &&
  f6B st val && f7B st val && f8B st val taught && f9B st val taughtB &&
  f10B st val && f11B st val && fBalB st val

/-- The solver contract: an OPTIMAL/FEASIBLE valuation satisfies the model,
i.e. some assignment of the auxiliary booleans makes every added constraint
hold. -/
def satisfiesConstraints (st : SchedState) (val : Key → Bool) : Prop :=
  ∃ pick taught taughtB : Nat → Nat → Nat → Bool,
    feasibleB st val pick taught taughtB = true

/-! ## Statement material: conflict relation, stripped entries, claims -/

/-- Two start times sit in adjacent slots of the grid. -/
def adjacentIn (grid : List (String × String)) (a b : String) : Prop :=
  ∃ i, i + 1 < grid.length ∧
    (((grid.getD i ("", "")).1 = a ∧ (grid.getD (i + 1) ("", "")).1 = b) ∨
     ((grid.getD i ("", "")).1 = b ∧ (grid.getD (i + 1) ("", "")).1 = a))

/-- The pairwise consistency of two schedule entries: no shared
`(day, startTime, teacherId)`, no shared `(day, startTime, classId)`, no shared
`(classId, day, subjectId)`, and entries of the same class, day and subject
never sit in adjacent slots of the grid. -/
def noConflict (grid : List (String × String)) (e1 e2 : Entry) : Prop :=
  ¬(e1.day = e2.day ∧ e1.startTime = e2.startTime ∧ e1.teacherId = e2.teacherId) ∧
  ¬(e1.day = e2.day ∧ e1.startTime = e2.startTime ∧ e1.classId = e2.classId) ∧
  ¬(e1.classId = e2.classId ∧ e1.day = e2.day ∧ e1.subjectId = e2.subjectId) ∧
  ((e1.classId = e2.classId ∧ e1.day = e2.day ∧ e1.subjectId = e2.subjectId) →
    ¬adjacentIn grid e1.startTime e2.startTime)

/-- An entry without its random id (the tuple the determinism claim compares). -/
def stripEntry (e : Entry) :
    String × String × String × String × String × String × String :=
  (e.day, e.startTime, e.endTime, e.classId, e.subjectId, e.teacherId, e.roomId)

/-- C1 as stated: on every validator-accepted input, a solved status makes the
returned schedule carry exactly `hoursPerWeek` entries for every
(class, required-subject) pair. -/
def subjectHoursClaim : Prop :=
  ∀ (fuel : Nat) (d : InputData) (o : Oracle) (st : SchedState),
    validateIssues d = [] →
    initScheduler fuel d = .ok st →
    buildRaises st = false →
    solvedStatus o.status = true →
    satisfiesConstraints st o.val →
    ∀ sch, generateSchedule fuel d o = .ok sch →
    ∀ c, c < st.classes.length →
    ∀ sid, sid ∈ (st.classes.getD c defaultClass).requiredSubjects →
    ∀ s, dictIndex (st.subjects.map (·.id)) sid = some s →
    ((sch.entries.countP (fun e =>
        e.classId == (st.classes.getD c defaultClass).id && e.subjectId == sid)) : Int)
      = (st.subjects.getD s defaultSubject).hoursPerWeek

/-- C4 as stated: an input whose time grid is empty makes the core fail with an
error result (never a normal or mock schedule). -/
def zeroSlotsClaim : Prop :=
  ∀ (fuel : Nat) (d : InputData) (o : Oracle) (st : SchedState),
    initScheduler fuel d = .ok st →
    st.timeSlots = [] →
    buildRaises st = false →
    (solvedStatus o.status = true → satisfiesConstraints st o.val) →
    ∀ sch, generateSchedule fuel d o = .ok sch →
    strStartsWith sch.scheduleId "error-schedule-" = true

/-- C7 as stated: with room constraints disabled, fewer rooms than classes
produce no "not enough rooms" issue. -/
def roomsIssueClaim : Prop :=
  ∀ (d : InputData) (s : RawSettings),
    d.school_settings = some s →
    s.useRoomConstraints = some false →
    d.rooms.length < d.classes.length →
    roomsCountMsg d ∉ validateIssues d

/-- C8 as stated: two runs on the same input with the same solver outcome
(fixed seed) return the same multiset of id-stripped entries and the same
schedule-id prefix. -/
def determinismClaim : Prop :=
  ∀ (fuel : Nat) (d : InputData) (o1 o2 : Oracle) (st : SchedState),
    initScheduler fuel d = .ok st →
    buildRaises st = false →
    o1.status = o2.status →
    o1.val = o2.val →
    (solvedStatus o1.status = true → satisfiesConstraints st o1.val) →
    ∀ s1 s2, generateSchedule fuel d o1 = .ok s1 → generateSchedule fuel d o2 = .ok s2 →
      (Multiset.ofList (s1.entries.map stripEntry) = Multiset.ofList (s2.entries.map stripEntry)) ∧
      strStartsWith s1.scheduleId "generated-schedule-" = strStartsWith s2.scheduleId "generated-schedule-" ∧
      strStartsWith s1.scheduleId "mock-schedule-" = strStartsWith s2.scheduleId "mock-schedule-" ∧
      strStartsWith s1.scheduleId "error-schedule-" = strStartsWith s2.scheduleId "error-schedule-"

/-! ## Concrete inputs and oracles used by witnesses and counterexamples -/

/-- A small, fully well-formed settings record: 08:00–09:30 day, 60-minute
lessons, 15-minute breaks, no breakfast break, lunch at 12:00, one working
day.  The grid it generates is the single slot 08:00–09:00. -/
def rawBase : RawSettings :=
  { startTime := some "08:00"
    endTime := some "09:30"
    lessonDuration := some 60
    breakDuration := some 15
    hasBreakfastBreak := some false
    breakfastBreakStartTime := some "10:00"
    breakfastBreakDuration := some 25
    lunchBreakDuration := some 45
    lunchBreakStartTime := some "12:00"
    lessonsPerDay := some 6
    daysPerWeek := some 1
    workingDays := some ["MONDAY"]
    useRoomConstraints := some false
    maxSubjectsPerDay := none
    minSubjectsPerDay := none
    exactLessonsPerDay := none
    freePeriods := []
    schedulingPreferences := ⟨none, none, []⟩ }

/-- All-absent settings (used as the fallback of `stOf`). -/
def rawEmpty : RawSettings :=
  { startTime := none, endTime := none, lessonDuration := none, breakDuration := none
    hasBreakfastBreak := none, breakfastBreakStartTime := none
    breakfastBreakDuration := none, lunchBreakDuration := none
    lunchBreakStartTime := none, lessonsPerDay := none, daysPerWeek := none
    workingDays := none, useRoomConstraints := none, maxSubjectsPerDay := none
    minSubjectsPerDay := none, exactLessonsPerDay := none, freePeriods := []
    schedulingPreferences := ⟨none, none, []⟩ }

/-- The scheduler state `initScheduler` produced, when it succeeded. -/
def stOf (fuel : Nat) (d : InputData) : SchedState :=
  match initScheduler fuel d with
  | .ok st => st
  | _ => preState d rawEmpty

/-- Validator-accepted input whose class demands subject `s1`, which no
teacher can teach (the only teacher covers `s2`). -/
def dNoTeacher : InputData :=
  { school_settings := some rawBase
    teachers := [⟨"t1", "T", ["s2"], none, none, []⟩]
    classes := [⟨"c1", "C1", ["s1"]⟩]
    subjects := [⟨"s1", "S1", 1⟩, ⟨"s2", "S2", 1⟩]
    rooms := [⟨"r1", "R1"⟩] }

/-- Validator-accepted input with one class, one subject (1 hour/week) and one
teacher able to teach it. -/
def dSolvable : InputData :=
  { school_settings := some rawBase
    teachers := [⟨"t1", "T", ["s1"], none, none, []⟩]
    classes := [⟨"c1", "C1", ["s1"]⟩]
    subjects := [⟨"s1", "S1", 1⟩]
    rooms := [⟨"r1", "R1"⟩] }

/-- Like `dSolvable` but with two teachers able to teach the demanded subject
(the fallback generator picks one of them at random). -/
def dTwoTeachers : InputData :=
  { school_settings := some rawBase
    teachers := [⟨"t1", "T1", ["s1"], none, none, []⟩, ⟨"t2", "T2", ["s1"], none, none, []⟩]
    classes := [⟨"c1", "C1", ["s1"]⟩]
    subjects := [⟨"s1", "S1", 1⟩]
    rooms := [⟨"r1", "R1"⟩] }

/-- Input whose school day (08:00–08:30) cannot fit a single 60-minute lesson:
the generated grid is empty. -/
def dZeroSlots : InputData :=
  { dSolvable with school_settings := some { rawBase with endTime := some "08:30" } }

/-- Input with a missing settings dict (the constructor raises `ValueError`). -/
def dMissing : InputData :=
  { school_settings := none
    teachers := [⟨"t1", "T", ["s1"], none, none, []⟩]
    classes := [⟨"c1", "C1", ["s1"]⟩]
    subjects := [⟨"s1", "S1", 1⟩]
    rooms := [⟨"r1", "R1"⟩] }

/-- Input whose `startTime` is not an HH:MM string: the slot builder's `try`
body raises and the fallback grid is used. -/
def dBadStart : InputData :=
  { dSolvable with school_settings := some { rawBase with startTime := some "garbage" } }

/-- Input with room constraints disabled and fewer rooms than classes. -/
def dFewRooms : InputData :=
  { school_settings := some rawBase
    teachers := [⟨"t1", "T", ["s1"], none, none, []⟩]
    classes := [⟨"c1", "C1", ["s1"]⟩]
    subjects := [⟨"s1", "S1", 1⟩]
    rooms := [] }

/-- The single decision-variable key of `dSolvable`. -/
def key0 : Key := ⟨0, 0, 0, 0, 0, 0⟩

/-- Oracle with a solved status and the all-zero valuation. -/
def oSolvedZero : Oracle :=
  { status := .optimal, val := fun _ => false, uuid := fun _ => "u"
    tpick := fun _ => 0, rpick := fun _ => 0, shuffle := id }

/-- Oracle with a solved status whose valuation sets exactly `key0`. -/
def oSolvedOne : Oracle :=
  { oSolvedZero with val := fun k => k == key0 }

/-- Oracle with an INFEASIBLE status (first random teacher). -/
def oInfeasible : Oracle := { oSolvedZero with status := .infeasible }

/-- Oracle with an INFEASIBLE status whose teacher draw picks the second
valid teacher. -/
def oInfeasiblePick1 : Oracle := { oInfeasible with tpick := fun _ => 1 }

/-! ## Theorems -/

/-- Specification of `dictIndexAux`: a returned index points (relative to the
running counter) at an occurrence of the key inside the list. -/
theorem dictIndexAux_spec {α : Type} [DecidableEq α] (x : α) :
    ∀ (l : List α) (i j : Nat), dictIndexAux x l i = some j →
      i ≤ j ∧ j - i < l.length ∧ ∀ d, l.getD (j - i) d = x := by
  intro l
  induction l with
  | nil => intro i j h; simp [dictIndexAux] at h
  | cons a rest ih =>
    intro i j h
    rw [dictIndexAux] at h
    cases hr : dictIndexAux x rest (i + 1) with
    | some j' =>
      simp only [hr] at h
      injection h with h2
      subst h2
      obtain ⟨h1, h2, h3⟩ := ih (i + 1) j' hr
      refine ⟨by omega, by simp only [List.length_cons]; omega, ?_⟩
      intro d
      have hk : j' - i = (j' - (i + 1)) + 1 := by omega
      rw [hk, List.getD_cons_succ]
      exact h3 d
    | none =>
      simp only [hr] at h
      split at h
      · rename_i hax
        injection h with h'
        subst h'
        refine ⟨le_refl _, by simp, ?_⟩
        intro d
        simp [Nat.sub_self, hax]
      · exact absurd h (by simp)

/-- Specification of `dictIndex`. -/
theorem dictIndex_spec {α : Type} [DecidableEq α] (l : List α) (x : α) (s : Nat)
    (h : dictIndex l x = some s) : s < l.length ∧ ∀ d, l.getD s d = x := by
  have hs := dictIndexAux_spec x l 0 s h
  exact ⟨by simpa using hs.2.1, by simpa using hs.2.2⟩

/-- A subject index returned by the dict lookup is in range and carries the
looked-up id. -/
theorem subj_id_at (st : SchedState) (sid : String) (s : Nat)
    (hidx : dictIndex (st.subjects.map (·.id)) sid = some s) :
    s < st.subjects.length ∧ (st.subjects.getD s defaultSubject).id = sid := by
  obtain ⟨hlt, hget⟩ := dictIndex_spec _ _ _ hidx
  rw [List.length_map] at hlt
  refine ⟨hlt, ?_⟩
  have hx := hget defaultSubject.id
  rw [List.getD_eq_getElem _ _ (by simpa using hlt), List.getElem_map] at hx
  rw [List.getD_eq_getElem _ _ hlt]
  exact hx

/-- Lemma: `getD` commutes with `map` when the default is mapped as well. -/
theorem getD_map {β γ : Type} (f : β → γ) :
    ∀ (l : List β) (i : Nat) (d : β), (l.map f).getD i (f d) = f (l.getD i d) := by
  intro l
  induction l with
  | nil => intro i d; rfl
  | cons a rest ih =>
    intro i d
    cases i with
    | zero => rfl
    | succ i' => simp only [List.map_cons, List.getD_cons_succ]; exact ih i' d

/-- In a duplicate-free list, positions with equal elements coincide. -/
theorem nodup_getD_inj {β : Type} :
    ∀ (l : List β), l.Nodup → ∀ (i j : Nat) (d : β), i < l.length → j < l.length →
      l.getD i d = l.getD j d → i = j := by
  intro l
  induction l with
  | nil => intro _ i j d hi _ _; simp at hi
  | cons a rest ih =>
    intro hn i j d hi hj he
    cases i with
    | zero =>
      cases j with
      | zero => rfl
      | succ j' =>
        exfalso
        have hj' : j' < rest.length := by simpa using hj
        rw [List.getD_cons_zero, List.getD_cons_succ] at he
        have hmem : a ∈ rest := by
          rw [he, List.getD_eq_getElem _ _ hj']
          exact List.getElem_mem hj'
        exact (List.nodup_cons.mp hn).1 hmem
    | succ i' =>
      cases j with
      | zero =>
        exfalso
        have hi' : i' < rest.length := by simpa using hi
        rw [List.getD_cons_succ, List.getD_cons_zero] at he
        have hmem : a ∈ rest := by
          rw [← he, List.getD_eq_getElem _ _ hi']
          exact List.getElem_mem hi'
        exact (List.nodup_cons.mp hn).1 hmem
      | succ j' =>
        have := ih (List.nodup_cons.mp hn).2 i' j' d (by simpa using hi) (by simpa using hj)
          (by simpa [List.getD_cons_succ] using he)
        omega

/-- When the projected ids are duplicate-free, equal projected ids force equal
indices. -/
theorem idx_eq_of_proj_eq {β : Type} (proj : β → String) (l : List β)
    (hn : (l.map proj).Nodup) (i j : Nat) (d : β) (hi : i < l.length)
    (hj : j < l.length) (h : proj (l.getD i d) = proj (l.getD j d)) : i = j := by
  apply nodup_getD_inj (l.map proj) hn i j (proj d) (by simpa using hi) (by simpa using hj)
  rw [getD_map, getD_map]
  exact h

/-- Every key of `assignment_vars` is within the index ranges of its state. -/
theorem varKeys_bounds (st : SchedState) (k : Key) (hk : k ∈ varKeys st) :
    k.c < st.classes.length ∧ k.s < st.subjects.length ∧ k.t < st.teachers.length ∧
    k.d < st.days.length ∧ k.ts < st.timeSlots.length ∧
    (st.useRoomConstraints = true → k.r < st.rooms.length) ∧
    (st.useRoomConstraints = false → k.r = 0) := by
  rw [varKeys, List.mem_dedup] at hk
  simp only [varKeysRaw, List.mem_flatMap] at hk
  obtain ⟨pr, hpr, hk⟩ := hk
  obtain ⟨sid, hsid, hk⟩ := hk
  cases hidx : dictIndex (st.subjects.map (·.id)) sid with
  | none => rw [hidx] at hk; exact absurd hk (List.not_mem_nil k)
  | some s =>
    simp only [hidx] at hk
    have hs : s < st.subjects.length := by
      have := (dictIndex_spec _ _ _ hidx).1
      rw [List.length_map] at this
      exact this
    have hc : pr.1 < st.classes.length := by
      obtain ⟨i, cls⟩ := pr
      exact (List.mem_enum hpr).1
    have ht : ∀ t ∈ validTeachers st sid, t < st.teachers.length := by
      intro t htm
      rw [validTeachers, List.mem_filter, List.mem_range] at htm
      exact htm.1
    cases hemp : (validTeachers st sid).isEmpty with
    | true => simp [hemp] at hk
    | false =>
      simp only [hemp, Bool.false_eq_true, if_false, keysFor] at hk
      cases hflag : st.useRoomConstraints with
      | true =>
        simp only [hflag, if_true, List.mem_flatMap, List.mem_map, List.mem_range] at hk
        obtain ⟨r, hr, d, hd, ts, hts, t, htm, hkey⟩ := hk
        subst hkey
        exact ⟨hc, hs, ht t htm, hd, hts, fun _ => hr, fun hf => by simp at hf⟩
      | false =>
        simp only [hflag, Bool.false_eq_true, if_false, List.mem_flatMap, List.mem_map,
          List.mem_range] at hk
        obtain ⟨d, hd, ts, hts, t, htm, hkey⟩ := hk
        subst hkey
        exact ⟨hc, hs, ht t htm, hd, hts, fun hf => by simp at hf, fun _ => rfl⟩

/-- Counting entries with a property that ignores the random id equals
counting the underlying keys. -/
theorem extractEntries_countP (st : SchedState) (u : Nat → String)
    (p : Entry → Bool) (q : Key → Bool)
    (hpq : ∀ (k : Key) (x : String), p (entryOf st x k) = q k) :
    ∀ (keys : List Key) (n : Nat),
      (extractEntries st u n keys).countP p = keys.countP q := by
  intro keys
  induction keys with
  | nil => intro n; rfl
  | cons k ks ih =>
    intro n
    simp only [extractEntries, List.countP_cons, ih (n + 1), hpq k (u n)]

/-- An empty time grid produces no decision variables at all. -/
theorem varKeys_eq_nil_of_no_slots (st : SchedState) (h : st.timeSlots = []) :
    varKeys st = [] := by
  apply List.eq_nil_iff_forall_not_mem.mpr
  intro k hk
  have hts := (varKeys_bounds st k hk).2.2.2.2.1
  rw [h] at hts
  simp at hts

/-- With a non-empty rooms list every created key has an in-range room index,
so the extraction room-id lookup cannot raise. -/
theorem extractRaises_eq_false_of_rooms (st : SchedState) (val : Key → Bool)
    (hrooms : st.rooms ≠ []) : extractRaises st val = false := by
  rw [extractRaises, List.any_eq_false]
  intro k hk
  have hb := varKeys_bounds st k hk
  have hkr : k.r < st.rooms.length := by
    cases hflag : st.useRoomConstraints with
    | true => exact hb.2.2.2.2.2.1 hflag
    | false =>
      rw [hb.2.2.2.2.2.2 hflag]
      exact List.length_pos.mpr hrooms
  simp [Nat.not_le.mpr hkr]

/-- C2: whenever the solver status is neither OPTIMAL nor FEASIBLE,
`generate_schedule` returns exactly the fallback generator's schedule, whose
id carries the `mock-schedule-` prefix. -/
theorem generate_returns_mock_on_unsolved (fuel : Nat) (d : InputData) (o : Oracle)
    (st : SchedState)
    (hinit : initScheduler fuel d = .ok st)
    (hbuild : buildRaises st = false)
    (hstatus : solvedStatus o.status = false) :
    generateSchedule fuel d o = .ok (mockSchedule st o) ∧
    ∃ suf, (mockSchedule st o).scheduleId = "mock-schedule-" ++ suf := by
  constructor
  · simp [generateSchedule, generateCore, hinit, hbuild, hstatus]
  · exact ⟨o.uuid 0, rfl⟩

/-- Witness for `generate_returns_mock_on_unsolved` at a concrete input and an
INFEASIBLE solver outcome. -/
theorem generate_returns_mock_on_unsolved_witness :
    initScheduler 32 dTwoTeachers = .ok (stOf 32 dTwoTeachers) ∧
    buildRaises (stOf 32 dTwoTeachers) = false ∧
    solvedStatus oInfeasible.status = false ∧
    (generateSchedule 32 dTwoTeachers oInfeasible =
        .ok (mockSchedule (stOf 32 dTwoTeachers) oInfeasible) ∧
      ∃ suf, (mockSchedule (stOf 32 dTwoTeachers) oInfeasible).scheduleId =
        "mock-schedule-" ++ suf) :=
  ⟨by decide, by decide, by decide,
    generate_returns_mock_on_unsolved 32 dTwoTeachers oInfeasible
      (stOf 32 dTwoTeachers) (by decide) (by decide) (by decide)⟩

/-- C3: if the `try` body of `generate_schedule` raises, the handler returns
an `error-schedule-` object with an empty entry list — never a partially
filled schedule. -/
theorem generate_error_schedule_on_exception (fuel : Nat) (d : InputData) (o : Oracle)
    (h : generateCore fuel d o = .exc) :
    ∃ sch, generateSchedule fuel d o = .ok sch ∧
      (∃ suf, sch.scheduleId = "error-schedule-" ++ suf) ∧ sch.entries = [] := by
  refine ⟨errorSchedule (o.uuid 0), ?_, ⟨o.uuid 0, rfl⟩, rfl⟩
  simp [generateSchedule, h]

/-- Witness for `generate_error_schedule_on_exception`: a missing settings
dict makes the constructor raise `ValueError`. -/
theorem generate_error_schedule_on_exception_witness :
    generateCore 32 dMissing oSolvedZero = .exc ∧
    ∃ sch, generateSchedule 32 dMissing oSolvedZero = .ok sch ∧
      (∃ suf, sch.scheduleId = "error-schedule-" ++ suf) ∧ sch.entries = [] :=
  ⟨by decide, generate_error_schedule_on_exception 32 dMissing oSolvedZero (by decide)⟩

/-- C9: when the `try` body of the time grid builder raises, the constructor
proceeds with exactly the six hard-coded fallback slots. -/
theorem fallback_slots_on_builder_exception (fuel : Nat) (d : InputData) (s : RawSettings)
    (hs : d.school_settings = some s)
    (hm : missingAny s = false)
    (hexc : slotsCoreSt fuel (preState d s) = .exc) :
    ∃ st, initScheduler fuel d = .ok st ∧
      st.timeSlots = [("08:00", "09:00"), ("09:15", "10:15"), ("10:30", "11:30"),
                      ("11:45", "12:45"), ("13:30", "14:30"), ("14:45", "15:45")] := by
  refine ⟨{ preState d s with timeSlots := fallbackSlots }, ?_, rfl⟩
  simp [initScheduler, hs, hm, hexc]

/-- Witness for `fallback_slots_on_builder_exception`: a non-HH:MM `startTime`
raises inside the builder. -/
theorem fallback_slots_on_builder_exception_witness :
    dBadStart.school_settings = some { rawBase with startTime := some "garbage" } ∧
    missingAny { rawBase with startTime := some "garbage" } = false ∧
    slotsCoreSt 32 (preState dBadStart { rawBase with startTime := some "garbage" }) = .exc ∧
    ∃ st, initScheduler 32 dBadStart = .ok st ∧
      st.timeSlots = [("08:00", "09:00"), ("09:15", "10:15"), ("10:30", "11:30"),
                      ("11:45", "12:45"), ("13:30", "14:30"), ("14:45", "15:45")] :=
  ⟨rfl, by decide, by decide,
    fallback_slots_on_builder_exception 32 dBadStart
      { rawBase with startTime := some "garbage" } rfl (by decide) (by decide)⟩

/-- C4, counterexample: on an input whose generated grid is empty the core
does NOT fail with an error result — it builds and solves the (empty) model
and returns an ordinary schedule. -/
theorem zero_slots_no_config_error : ¬zeroSlotsClaim := by
  intro h
  have hc := h 32 dZeroSlots oSolvedZero (stOf 32 dZeroSlots) (by decide) (by decide)
    (by decide)
    (fun _ => ⟨fun _ _ _ => true, fun _ _ _ => false, fun _ _ _ => false, by decide⟩)
    (extractSolution (stOf 32 dZeroSlots) oSolvedZero.val oSolvedZero.uuid) (by decide)
  exact absurd hc (by decide)

/-- C4, amended: when the time grid is empty (and constraint assembly does not
itself raise), `generate_schedule` proceeds to solve and returns a normal
`generated-schedule-` or `mock-schedule-` result, never an error. -/
theorem zero_slots_proceeds_to_solve (fuel : Nat) (d : InputData) (o : Oracle)
    (st : SchedState)
    (hinit : initScheduler fuel d = .ok st)
    (hslots : st.timeSlots = [])
    (hbuild : buildRaises st = false) :
    ∃ sch, generateSchedule fuel d o = .ok sch ∧
      ((∃ suf, sch.scheduleId = "generated-schedule-" ++ suf) ∨
       (∃ suf, sch.scheduleId = "mock-schedule-" ++ suf)) := by
  have hr0 : extractRaises st o.val = false := by
    rw [extractRaises, varKeys_eq_nil_of_no_slots st hslots]
    rfl
  by_cases hsol : solvedStatus o.status = true
  · exact ⟨extractSolution st o.val o.uuid,
      by simp [generateSchedule, generateCore, hinit, hbuild, hsol, hr0],
      Or.inl ⟨o.uuid 0, rfl⟩⟩
  · have hsol' : solvedStatus o.status = false := by
      cases hb : solvedStatus o.status
      · rfl
      · exact absurd hb hsol
    exact ⟨mockSchedule st o,
      by simp [generateSchedule, generateCore, hinit, hbuild, hsol'],
      Or.inr ⟨o.uuid 0, rfl⟩⟩

/-- Witness for `zero_slots_proceeds_to_solve` at the concrete empty-grid
input. -/
theorem zero_slots_proceeds_to_solve_witness :
    initScheduler 32 dZeroSlots = .ok (stOf 32 dZeroSlots) ∧
    (stOf 32 dZeroSlots).timeSlots = [] ∧
    buildRaises (stOf 32 dZeroSlots) = false ∧
    ∃ sch, generateSchedule 32 dZeroSlots oInfeasible = .ok sch ∧
      ((∃ suf, sch.scheduleId = "generated-schedule-" ++ suf) ∨
       (∃ suf, sch.scheduleId = "mock-schedule-" ++ suf)) :=
  ⟨by decide, by decide, by decide,
    zero_slots_proceeds_to_solve 32 dZeroSlots oInfeasible (stOf 32 dZeroSlots)
      (by decide) (by decide) (by decide)⟩

/-- C7, counterexample: with room constraints disabled and fewer rooms than
classes, the "not enough rooms" issue DOES appear (the count check is
unconditional in the validator). -/
theorem rooms_issue_appears_when_disabled : ¬roomsIssueClaim := by
  intro h
  exact h dFewRooms rawBase rfl rfl (by decide) (by decide)

/-- C7, amended: the "not enough rooms" count issue is emitted for every input
with fewer rooms than classes, regardless of `useRoomConstraints`. -/
theorem rooms_issue_unconditional (d : InputData)
    (h : d.rooms.length < d.classes.length) :
    roomsCountMsg d ∈ validateIssues d := by
  unfold validateIssues
  simp [List.mem_append, h]

/-- Witness for `rooms_issue_unconditional`. -/
theorem rooms_issue_unconditional_witness :
    dFewRooms.rooms.length < dFewRooms.classes.length ∧
    roomsCountMsg dFewRooms ∈ validateIssues dFewRooms :=
  ⟨by decide, rooms_issue_unconditional dFewRooms (by decide)⟩

/-- A second solved oracle differing from `oSolvedOne` only in its uuid draws. -/
def oSolvedOneV : Oracle := { oSolvedOne with uuid := fun _ => "v" }

/-- Stripping ids makes extraction independent of the uuid stream. -/
theorem extractEntries_strip (st : SchedState) (u1 u2 : Nat → String) :
    ∀ (keys : List Key) (n m : Nat),
      (extractEntries st u1 n keys).map stripEntry
        = (extractEntries st u2 m keys).map stripEntry := by
  intro keys
  induction keys with
  | nil => intro n m; rfl
  | cons k ks ih =>
    intro n m
    simp only [extractEntries, List.map_cons]
    exact congrArg₂ List.cons rfl (ih (n + 1) (m + 1))

/-- C8, counterexample: on the fallback path the process-wide RNG (modelled by
the oracle's teacher draw) is not governed by the solver seed; two runs with
identical solver outcome can return different entry multisets. -/
theorem generate_not_deterministic_on_fallback : ¬determinismClaim := by
  intro h
  have hc := h 32 dTwoTeachers oInfeasible oInfeasiblePick1 (stOf 32 dTwoTeachers)
    (by decide) (by decide) rfl rfl (fun hx => absurd hx (by decide))
    (mockSchedule (stOf 32 dTwoTeachers) oInfeasible)
    (mockSchedule (stOf 32 dTwoTeachers) oInfeasiblePick1)
    (by decide) (by decide)
  have hp := Quotient.exact hc.1
  have hm := hp.mem_iff.mp
    (show ("MONDAY", "08:00", "09:00", "c1", "s1", "t1", "r1")
        ∈ (mockSchedule (stOf 32 dTwoTeachers) oInfeasible).entries.map stripEntry by decide)
  exact absurd hm (by decide)

/-- C8, amended: on the success path (solved status, identical solver
valuation, i.e. a fixed seed), two runs return the same multiset of
id-stripped entries and the same schedule-id class: either both extract,
carrying the `generated-schedule-` prefix, or extraction raises on the room-id
lookup in both runs and both return `error-schedule-` objects; only the random
ids may differ. -/
theorem generate_deterministic_on_solver_success (fuel : Nat) (d : InputData)
    (o1 o2 : Oracle) (st : SchedState)
    (hinit : initScheduler fuel d = .ok st)
    (hbuild : buildRaises st = false)
    (hst : o1.status = o2.status)
    (hval : o1.val = o2.val)
    (hsol : solvedStatus o1.status = true) :
    ∀ s1 s2, generateSchedule fuel d o1 = .ok s1 → generateSchedule fuel d o2 = .ok s2 →
      Multiset.ofList (s1.entries.map stripEntry)
          = Multiset.ofList (s2.entries.map stripEntry) ∧
      ((∃ a, s1.scheduleId = "generated-schedule-" ++ a) ∧
        (∃ b, s2.scheduleId = "generated-schedule-" ++ b) ∨
       (∃ a, s1.scheduleId = "error-schedule-" ++ a) ∧
        (∃ b, s2.scheduleId = "error-schedule-" ++ b)) := by
  intro s1 s2 h1 h2
  have hsol2 : solvedStatus o2.status = true := hst ▸ hsol
  cases hres : extractRaises st o1.val with
  | false =>
    have hres2 : extractRaises st o2.val = false := by rw [← hval]; exact hres
    have g1 : generateSchedule fuel d o1 = .ok (extractSolution st o1.val o1.uuid) := by
      simp [generateSchedule, generateCore, hinit, hbuild, hsol, hres]
    have g2 : generateSchedule fuel d o2 = .ok (extractSolution st o2.val o2.uuid) := by
      simp [generateSchedule, generateCore, hinit, hbuild, hsol2, hres2]
    rw [g1] at h1
    rw [g2] at h2
    cases h1
    cases h2
    refine ⟨?_, Or.inl ⟨⟨o1.uuid 0, rfl⟩, ⟨o2.uuid 0, rfl⟩⟩⟩
    show Multiset.ofList
        ((extractEntries st o1.uuid 1 ((varKeys st).filter o1.val)).map stripEntry)
        = Multiset.ofList
          ((extractEntries st o2.uuid 1 ((varKeys st).filter o2.val)).map stripEntry)
    rw [hval]
    exact congrArg Multiset.ofList (extractEntries_strip st o1.uuid o2.uuid _ 1 1)
  | true =>
    have hres2 : extractRaises st o2.val = true := by rw [← hval]; exact hres
    have g1 : generateSchedule fuel d o1 = .ok (errorSchedule (o1.uuid 0)) := by
      simp [generateSchedule, generateCore, hinit, hbuild, hsol, hres]
    have g2 : generateSchedule fuel d o2 = .ok (errorSchedule (o2.uuid 0)) := by
      simp [generateSchedule, generateCore, hinit, hbuild, hsol2, hres2]
    rw [g1] at h1
    rw [g2] at h2
    cases h1
    cases h2
    exact ⟨rfl, Or.inr ⟨⟨o1.uuid 0, rfl⟩, ⟨o2.uuid 0, rfl⟩⟩⟩

/-- Witness for `generate_deterministic_on_solver_success` at a concrete
solved input, two uuid streams. -/
theorem generate_deterministic_on_solver_success_witness :
    initScheduler 32 dSolvable = .ok (stOf 32 dSolvable) ∧
    buildRaises (stOf 32 dSolvable) = false ∧
    solvedStatus oSolvedOne.status = true ∧
    (Multiset.ofList
        ((extractSolution (stOf 32 dSolvable) oSolvedOne.val oSolvedOne.uuid).entries.map stripEntry)
      = Multiset.ofList
        ((extractSolution (stOf 32 dSolvable) oSolvedOneV.val oSolvedOneV.uuid).entries.map stripEntry) ∧
     ((∃ a, (extractSolution (stOf 32 dSolvable) oSolvedOne.val oSolvedOne.uuid).scheduleId
          = "generated-schedule-" ++ a) ∧
       (∃ b, (extractSolution (stOf 32 dSolvable) oSolvedOneV.val oSolvedOneV.uuid).scheduleId
          = "generated-schedule-" ++ b) ∨
      (∃ a, (extractSolution (stOf 32 dSolvable) oSolvedOne.val oSolvedOne.uuid).scheduleId
          = "error-schedule-" ++ a) ∧
       (∃ b, (extractSolution (stOf 32 dSolvable) oSolvedOneV.val oSolvedOneV.uuid).scheduleId
          = "error-schedule-" ++ b))) :=
  ⟨by decide, by decide, by decide,
    generate_deterministic_on_solver_success 32 dSolvable oSolvedOne oSolvedOneV
      (stOf 32 dSolvable) (by decide) (by decide) rfl rfl (by decide)
      (extractSolution (stOf 32 dSolvable) oSolvedOne.val oSolvedOne.uuid)
      (extractSolution (stOf 32 dSolvable) oSolvedOneV.val oSolvedOneV.uuid)
      (by decide) (by decide)⟩

/-- An entry accepted by the mock generator's local check conflicts with no
previously emitted entry. -/
theorem validSlot_noConflict (st : SchedState) (entries : List Entry) (day : String)
    (slot : String × String) (cid sid tid : String) (newE : Entry)
    (hday : newE.day = day) (hstart : newE.startTime = slot.1)
    (hclass : newE.classId = cid) (hsubj : newE.subjectId = sid)
    (htid : newE.teacherId = tid)
    (h : validSlot st entries day slot cid sid tid = true)
    (e : Entry) (he : e ∈ entries) : noConflict st.timeSlots e newE := by
  rw [validSlot, List.all_eq_true] at h
  have hb := h e he
  simp only [Bool.and_eq_true] at hb
  obtain ⟨⟨⟨h1, h2⟩, h3⟩, -⟩ := hb
  have n3 : ¬(e.classId = newE.classId ∧ e.day = newE.day ∧ e.subjectId = newE.subjectId) := by
    rintro ⟨a, b, c⟩
    rw [hclass] at a; rw [hday] at b; rw [hsubj] at c
    simp [a, b, c] at h3
  refine ⟨?_, ?_, n3, fun hcds => (n3 hcds).elim⟩
  · rintro ⟨a, b, c⟩
    rw [hday] at a; rw [hstart] at b; rw [htid] at c
    simp [a, b, c] at h1
  · rintro ⟨a, b, c⟩
    rw [hday] at a; rw [hstart] at b; rw [hclass] at c
    simp [a, b, c] at h2

/-- The per-pair greedy scan preserves pairwise consistency of the emitted
entries. -/
theorem assignHours_pairwise (st : SchedState) (o : Oracle) (cid sid : String)
    (t : Teacher) :
    ∀ (avail : List (String × (String × String))) (idx : Nat) (hours : Int)
      (entries : List Entry),
      entries.Pairwise (noConflict st.timeSlots) →
      (assignHours st o cid sid t avail idx hours entries).Pairwise (noConflict st.timeSlots) := by
  intro avail
  induction avail with
  | nil => intro idx hours entries h; simpa [assignHours] using h
  | cons p rest ih =>
    intro idx hours entries h
    obtain ⟨day, slot⟩ := p
    simp only [assignHours]
    split
    · exact h
    · split
      · rename_i hv
        refine ih (idx + 1) (hours - 1) _ ?_
        rw [List.pairwise_append]
        refine ⟨h, List.pairwise_singleton _ _, ?_⟩
        intro a ha b hb
        rw [List.mem_singleton] at hb
        subst hb
        exact validSlot_noConflict st entries day slot cid sid t.id _
          rfl rfl rfl rfl rfl hv a ha
      · exact ih (idx + 1) hours entries h

/-- The whole mock emission preserves pairwise consistency. -/
theorem mockAssignAll_pairwise (st : SchedState) (o : Oracle) :
    ∀ (pairs : List ((String × String) × Teacher)) (acc : List Entry),
      acc.Pairwise (noConflict st.timeSlots) →
      (pairs.foldl
        (fun entries pr =>
          match st.subjects.find? (fun s => s.id = pr.1.2) with
          | none => entries
          | some subj =>
            if subj.hoursPerWeek ≤ 0 then entries
            else
              match st.classes.find? (fun c => c.id = pr.1.1) with
              | none => entries
              | some _ =>
                assignHours st o pr.1.1 pr.1.2 pr.2 (o.shuffle (availSlots st)) 0
                  subj.hoursPerWeek entries)
        acc).Pairwise (noConflict st.timeSlots) := by
  intro pairs
  induction pairs with
  | nil => intro acc h; exact h
  | cons pr rest ih =>
    intro acc h
    simp only [List.foldl_cons]
    apply ih
    cases hfind : st.subjects.find? (fun s => s.id = pr.1.2) with
    | none => simpa [hfind] using h
    | some subj =>
      simp only [hfind]
      split
      · exact h
      · cases hcf : st.classes.find? (fun c => c.id = pr.1.1) with
        | none => simpa [hcf] using h
        | some cls =>
          simp only [hcf]
          exact assignHours_pairwise st o pr.1.1 pr.1.2 pr.2 _ 0 subj.hoursPerWeek acc h

/-- C6: in every schedule produced by the fallback greedy generator, any two
distinct entries share no `(day, startTime, teacherId)`, no
`(day, startTime, classId)`, no `(classId, day, subjectId)`, and same-subject
entries of a class never occupy adjacent slots of the generated grid. -/
theorem mock_schedule_entries_pairwise_consistent (st : SchedState) (o : Oracle) :
    ((mockSchedule st o).entries).Pairwise (noConflict st.timeSlots) := by
  show (mockAssignAll st o (assignedTeachers st o.tpick)).Pairwise (noConflict st.timeSlots)
  unfold mockAssignAll
  exact mockAssignAll_pairwise st o (assignedTeachers st o.tpick) [] List.Pairwise.nil

/-- Invariant of the slot loop: every emitted slot starts at or after the
cursor, has length `ldur`, ends by `em`, and overlaps neither the lunch window
`[ls, le)` nor (when breakfast is on) the breakfast window `[bs, be)`. -/
theorem slotLoop_invariant (hasB : Bool) (bs be ls le ldur bdur em : Int)
    (hld : 1 ≤ ldur) (hbd : 0 ≤ bdur) :
    ∀ (fuel : Nat) (cur : Int) (l : List (Int × Int)),
      slotLoop hasB bs be ls le ldur bdur em fuel cur = some l →
      ∀ p ∈ l, cur ≤ p.1 ∧ p.2 = p.1 + ldur ∧ p.2 ≤ em ∧
        ¬(p.1 < le ∧ p.2 > ls) ∧ (hasB = true → ¬(p.1 < be ∧ p.2 > bs)) := by
  intro fuel
  induction fuel with
  | zero => intro cur l h; simp [slotLoop] at h
  | succ f ih =>
    intro cur l h
    rw [slotLoop] at h
    split at h
    · rename_i hin
      split at h
      · rename_i hbj
        intro p hp
        have hrec := ih be l h p hp
        exact ⟨le_trans (le_of_lt hbj.2.1) hrec.1, hrec.2⟩
      · rename_i hbj
        split at h
        · rename_i hlj
          intro p hp
          have hrec := ih le l h p hp
          exact ⟨le_trans (le_of_lt hlj.1) hrec.1, hrec.2⟩
        · rename_i hlj
          cases hrec : slotLoop hasB bs be ls le ldur bdur em f (cur + ldur + bdur) with
          | none => rw [hrec] at h; exact absurd h (by simp)
          | some rest =>
            rw [hrec] at h
            injection h with h'
            subst h'
            intro p hp
            rcases List.mem_cons.mp hp with rfl | hmem
            · refine ⟨le_refl _, rfl, hin, hlj, fun hB hx => hbj ⟨hB, hx.1, hx.2⟩⟩
            · have hr := ih _ rest hrec p hmem
              exact ⟨le_trans (by omega) hr.1, hr.2⟩
    · injection h with h'
      subst h'
      intro p hp
      exact absurd hp (List.not_mem_nil p)

/-- More fuel cannot change a loop result that already returned. -/
theorem slotLoop_mono (hasB : Bool) (bs be ls le ldur bdur em : Int) :
    ∀ (fuel fuel' : Nat) (cur : Int) (l : List (Int × Int)), fuel ≤ fuel' →
      slotLoop hasB bs be ls le ldur bdur em fuel cur = some l →
      slotLoop hasB bs be ls le ldur bdur em fuel' cur = some l := by
  intro fuel
  induction fuel with
  | zero => intro fuel' cur l _ h; simp [slotLoop] at h
  | succ f ih =>
    intro fuel' cur l hle h
    obtain ⟨f', rfl⟩ : ∃ f', fuel' = f' + 1 := ⟨fuel' - 1, by omega⟩
    rw [slotLoop] at h ⊢
    split at h
    · rename_i h1
      rw [if_pos h1]
      split at h
      · rename_i h2
        rw [if_pos h2]
        exact ih f' be l (by omega) h
      · rename_i h2
        rw [if_neg h2]
        split at h
        · rename_i h3
          rw [if_pos h3]
          exact ih f' le l (by omega) h
        · rename_i h3
          rw [if_neg h3]
          cases hrec : slotLoop hasB bs be ls le ldur bdur em f (cur + ldur + bdur) with
          | none => rw [hrec] at h; exact absurd h (by simp)
          | some rest =>
            rw [hrec] at h
            rw [ih f' (cur + ldur + bdur) rest (by omega) hrec]
            exact h
    · rename_i h1
      rw [if_neg h1]
      exact h

/-- With a positive lesson length and a non-negative break length every loop
iteration strictly advances the cursor, so `(em - cur).toNat` bounds the
number of iterations. -/
theorem slotLoop_succeeds (hasB : Bool) (bs be ls le ldur bdur em : Int)
    (hld : 1 ≤ ldur) (hbd : 0 ≤ bdur) :
    ∀ (fuel : Nat) (cur : Int), (em - cur).toNat < fuel →
      (slotLoop hasB bs be ls le ldur bdur em fuel cur).isSome = true := by
  intro fuel
  induction fuel with
  | zero => intro cur h; omega
  | succ f ih =>
    intro cur h
    rw [slotLoop]
    split
    · rename_i hin
      split
      · rename_i hbj
        exact ih be (by omega)
      · split
        · rename_i hbj hlj
          exact ih le (by omega)
        · rename_i hbj hlj
          cases hrec : slotLoop hasB bs be ls le ldur bdur em f (cur + ldur + bdur) with
          | none =>
            have hs := ih (cur + ldur + bdur) (by omega)
            rw [hrec] at hs
            exact absurd hs (by simp)
          | some rest => simp
    · simp

/-- The parsed form of `slotsCore` under successful time parses: it is exactly
the slot loop started at `startTime`, with the breakfast window active only
when configured. -/
theorem slotsCore_reduce (fuel : Nat) (startT endT bStart lStart : String)
    (ldur bdur bDur lDur : Int) (hasB : Bool) (sm em lsv bsv : Int)
    (hsm : timeToMinutes startT = some sm)
    (hem : timeToMinutes endT = some em)
    (hls : timeToMinutes lStart = some lsv)
    (hbs : hasB = true → timeToMinutes bStart = some bsv) :
    slotsCore fuel startT endT ldur bdur hasB bStart bDur lStart lDur =
      (match slotLoop hasB (if hasB = true then bsv else -1)
          (if hasB = true then bsv + bDur else -1) lsv (lsv + lDur) ldur bdur em fuel sm with
       | none => SlotsOutcome.hang
       | some l => SlotsOutcome.ok l) := by
  cases hB : hasB with
  | true => simp [slotsCore, hB, hsm, hem, hls, hbs hB]
  | false => simp [slotsCore, hB, hsm, hem, hls]

/-- C5: under well-formed times and positive durations, every slot the builder
returns has length `lessonDuration`, lies inside the school day, and is
disjoint from the lunch window and (when enabled) the breakfast window; when
`hasBreakfastBreak` is false the breakfast settings impose no restriction at
all (the output does not depend on them). -/
theorem time_slots_within_day_and_off_breaks
    (startT endT bStart lStart : String) (ldur bdur bDur lDur : Int)
    (hasB : Bool) (sm em lsv bsv : Int)
    (hsm : timeToMinutes startT = some sm)
    (hem : timeToMinutes endT = some em)
    (hls : timeToMinutes lStart = some lsv)
    (hbs : hasB = true → timeToMinutes bStart = some bsv)
    (hld : 1 ≤ ldur) (hbd : 0 ≤ bdur) :
    (∀ (fuel : Nat) (l : List (String × String)),
      timeSlotsFor fuel startT endT ldur bdur hasB bStart bDur lStart lDur = some l →
      ∀ p ∈ l, ∃ a b : Int, p = (minutesToTime a, minutesToTime b) ∧
        b - a = ldur ∧ sm ≤ a ∧ b ≤ em ∧
        (b ≤ lsv ∨ lsv + lDur ≤ a) ∧
        (hasB = true → (b ≤ bsv ∨ bsv + bDur ≤ a))) ∧
    (hasB = false → ∀ (fuel : Nat) (x : String) (y : Int),
      timeSlotsFor fuel startT endT ldur bdur false x y lStart lDur
        = timeSlotsFor fuel startT endT ldur bdur false bStart bDur lStart lDur) := by
  constructor
  · intro fuel l hgen p hp
    unfold timeSlotsFor at hgen
    rw [slotsCore_reduce fuel startT endT bStart lStart ldur bdur bDur lDur hasB
      sm em lsv bsv hsm hem hls hbs] at hgen
    cases hloop : slotLoop hasB (if hasB = true then bsv else -1)
        (if hasB = true then bsv + bDur else -1) lsv (lsv + lDur) ldur bdur em fuel sm with
    | none => rw [hloop] at hgen; exact absurd hgen (by simp)
    | some l0 =>
      rw [hloop] at hgen
      simp only [] at hgen
      injection hgen with hgen'
      subst hgen'
      obtain ⟨⟨a, b⟩, hmem, rfl⟩ := List.mem_map.mp hp
      have hinv := slotLoop_invariant hasB (if hasB = true then bsv else -1)
        (if hasB = true then bsv + bDur else -1) lsv (lsv + lDur) ldur bdur em
        hld hbd fuel sm l0 hloop (a, b) hmem
      refine ⟨a, b, rfl, by omega, hinv.1, hinv.2.2.1, ?_, ?_⟩
      · have hno := hinv.2.2.2.1
        omega
      · intro hB
        have hno := hinv.2.2.2.2 hB
        simp only [hB, if_true] at hno
        omega
  · intro hB fuel x y
    subst hB
    simp [timeSlotsFor, slotsCore]

/-- Witness for `time_slots_within_day_and_off_breaks` at the sample settings
(08:00-15:00 day, breakfast 10:00+25, lunch 12:00+45, 60+15 minute slots). -/
theorem time_slots_within_day_and_off_breaks_witness :
    timeToMinutes "08:00" = some 480 ∧ timeToMinutes "15:00" = some 900 ∧
    timeToMinutes "12:00" = some 720 ∧ (true = true → timeToMinutes "10:00" = some 600) ∧
    (1 : Int) ≤ 60 ∧ (0 : Int) ≤ 15 ∧
    ((∀ (fuel : Nat) (l : List (String × String)),
      timeSlotsFor fuel "08:00" "15:00" 60 15 true "10:00" 25 "12:00" 45 = some l →
      ∀ p ∈ l, ∃ a b : Int, p = (minutesToTime a, minutesToTime b) ∧
        b - a = 60 ∧ 480 ≤ a ∧ b ≤ 900 ∧
        (b ≤ 720 ∨ 720 + 45 ≤ a) ∧
        (true = true → (b ≤ 600 ∨ 600 + 25 ≤ a))) ∧
    (true = false → ∀ (fuel : Nat) (x : String) (y : Int),
      timeSlotsFor fuel "08:00" "15:00" 60 15 false x y "12:00" 45
        = timeSlotsFor fuel "08:00" "15:00" 60 15 false "10:00" 25 "12:00" 45)) :=
  ⟨by decide, by decide, by decide, fun _ => by decide, by decide, by decide,
    time_slots_within_day_and_off_breaks "08:00" "15:00" "10:00" "12:00" 60 15 25 45
      true 480 900 720 600 (by decide) (by decide) (by decide) (fun _ => by decide)
      (by decide) (by decide)⟩

/-- C10: under well-formed times, a positive lesson duration and a
non-negative break duration, the builder's loop terminates: there is a single
result the builder returns for every sufficient fuel. -/
theorem slot_generation_terminates
    (startT endT bStart lStart : String) (ldur bdur bDur lDur : Int)
    (hasB : Bool) (sm em lsv bsv : Int)
    (hsm : timeToMinutes startT = some sm)
    (hem : timeToMinutes endT = some em)
    (hls : timeToMinutes lStart = some lsv)
    (hbs : hasB = true → timeToMinutes bStart = some bsv)
    (hld : 1 ≤ ldur) (hbd : 0 ≤ bdur) :
    ∃ l, ∀ fuel : Nat, (em - sm).toNat < fuel →
      timeSlotsFor fuel startT endT ldur bdur hasB bStart bDur lStart lDur = some l := by
  have hs := slotLoop_succeeds hasB (if hasB = true then bsv else -1)
    (if hasB = true then bsv + bDur else -1) lsv (lsv + lDur) ldur bdur em hld hbd
    ((em - sm).toNat + 1) sm (by omega)
  cases hloop : slotLoop hasB (if hasB = true then bsv else -1)
      (if hasB = true then bsv + bDur else -1) lsv (lsv + lDur) ldur bdur em
      ((em - sm).toNat + 1) sm with
  | none => rw [hloop] at hs; exact absurd hs (by simp)
  | some l0 =>
    refine ⟨l0.map (fun p => (minutesToTime p.1, minutesToTime p.2)), ?_⟩
    intro fuel hf
    have hmono := slotLoop_mono hasB (if hasB = true then bsv else -1)
      (if hasB = true then bsv + bDur else -1) lsv (lsv + lDur) ldur bdur em
      ((em - sm).toNat + 1) fuel sm l0 (by omega) hloop
    unfold timeSlotsFor
    rw [slotsCore_reduce fuel startT endT bStart lStart ldur bdur bDur lDur hasB
      sm em lsv bsv hsm hem hls hbs, hmono]

/-- Witness for `slot_generation_terminates` at the sample settings. -/
theorem slot_generation_terminates_witness :
    timeToMinutes "08:00" = some 480 ∧ timeToMinutes "15:00" = some 900 ∧
    timeToMinutes "12:00" = some 720 ∧ (true = true → timeToMinutes "10:00" = some 600) ∧
    (1 : Int) ≤ 60 ∧ (0 : Int) ≤ 15 ∧
    ∃ l, ∀ fuel : Nat, ((900 : Int) - 480).toNat < fuel →
      timeSlotsFor fuel "08:00" "15:00" 60 15 true "10:00" 25 "12:00" 45 = some l :=
  ⟨by decide, by decide, by decide, fun _ => by decide, by decide, by decide,
    slot_generation_terminates "08:00" "15:00" "10:00" "12:00" 60 15 25 45
      true 480 900 720 600 (by decide) (by decide) (by decide) (fun _ => by decide)
      (by decide) (by decide)⟩

/-- C1, counterexample: a validator-accepted input may demand a subject no
teacher can teach; the model then has no variables (and no hours constraint)
for that pair, the solver reports OPTIMAL, and the returned schedule contains
0 of the required 1 hours. -/
theorem generate_subject_hours_not_universal : ¬subjectHoursClaim := by
  intro h
  have hc := h 32 dNoTeacher oSolvedZero (stOf 32 dNoTeacher) (by decide) (by decide)
    (by decide) (by decide)
    ⟨fun _ _ _ => false, fun _ _ _ => false, fun _ _ _ => false, by decide⟩
    (extractSolution (stOf 32 dNoTeacher) oSolvedZero.val oSolvedZero.uuid) (by decide)
    0 (by decide) "s1" (by decide) 0 (by decide)
  exact absurd hc (by decide)

/-- C1, amended: the exact-hours guarantee holds for every demanded pair that
actually received decision variables (some teacher covers the subject and the
grids are non-empty), with positive demanded hours, a non-empty rooms list and
duplicate-free class and subject ids; pairs without variables (e.g. no
qualified teacher) are exempt, as the code skips their hours constraint. -/
theorem generate_subject_hours_of_demanded_pair
    (fuel : Nat) (d : InputData) (o : Oracle) (st : SchedState)
    (_hacc : validateIssues d = [])
    (hinit : initScheduler fuel d = .ok st)
    (hbuild : buildRaises st = false)
    (hsolved : solvedStatus o.status = true)
    (hsat : satisfiesConstraints st o.val)
    (c : Nat) (hc : c < st.classes.length)
    (sid : String) (hreq : sid ∈ (st.classes.getD c defaultClass).requiredSubjects)
    (s : Nat) (hidx : dictIndex (st.subjects.map (·.id)) sid = some s)
    (hh : 1 ≤ (st.subjects.getD s defaultSubject).hoursPerWeek)
    (hne : pairVars st c s ≠ [])
    (hrooms : st.rooms ≠ [])
    (hnodupC : (st.classes.map (·.id)).Nodup)
    (hnodupS : (st.subjects.map (·.id)).Nodup) :
    ∀ sch, generateSchedule fuel d o = .ok sch →
      ((sch.entries.countP (fun e =>
          e.classId == (st.classes.getD c defaultClass).id && e.subjectId == sid)) : Int)
        = (st.subjects.getD s defaultSubject).hoursPerWeek := by
  intro sch hgen
  have hr0 : extractRaises st o.val = false :=
    extractRaises_eq_false_of_rooms st o.val hrooms
  have hex : generateSchedule fuel d o = .ok (extractSolution st o.val o.uuid) := by
    simp [generateSchedule, generateCore, hinit, hbuild, hsolved, hr0]
  rw [hex] at hgen
  injection hgen with hgen'
  subst hgen'
  -- step 1: the hours constraint the model enforces for this pair
  obtain ⟨pick, tg, tb, hF⟩ := hsat
  have hF1 : f1B st o.val = true := by
    simp only [feasibleB, Bool.and_eq_true] at hF
    exact hF.1.1.1.1.1.1.1.1.1.1.1
  unfold f1B at hF1
  rw [List.all_eq_true] at hF1
  have h1 := hF1 c (List.mem_range.mpr hc)
  rw [List.all_eq_true] at h1
  have h2 := h1 sid hreq
  simp only [hidx] at h2
  rw [if_neg (by omega)] at h2
  have hne' : (pairVars st c s).isEmpty = false := by
    cases hpe : (pairVars st c s).isEmpty
    · rfl
    · exact absurd (List.isEmpty_iff.mp hpe) hne
  rw [hne', Bool.false_or, decide_eq_true_iff] at h2
  -- step 2: the returned entry count is the count over the pair's variables
  have hA : (extractSolution st o.val o.uuid).entries.countP
      (fun e => e.classId == (st.classes.getD c defaultClass).id && e.subjectId == sid)
      = ((varKeys st).filter o.val).countP
        (fun k => (st.classes.getD k.c defaultClass).id == (st.classes.getD c defaultClass).id &&
          (st.subjects.getD k.s defaultSubject).id == sid) :=
    extractEntries_countP st o.uuid _ _ (fun k x => rfl) _ 1
  rw [List.countP_filter] at hA
  have hC : (varKeys st).countP
      (fun k => ((st.classes.getD k.c defaultClass).id == (st.classes.getD c defaultClass).id &&
        (st.subjects.getD k.s defaultSubject).id == sid) && o.val k)
      = (varKeys st).countP
        (fun k => o.val k && (decide (k.c = c) && decide (k.s = s) && inLoopRange st k)) := by
    apply List.countP_congr
    intro k hk
    have hb := varKeys_bounds st k hk
    simp only [Bool.and_eq_true, beq_iff_eq, decide_eq_true_iff]
    constructor
    · rintro ⟨⟨hcid, hsid2⟩, hval⟩
      refine ⟨hval, ⟨?_, ?_⟩, ?_⟩
      · exact idx_eq_of_proj_eq (fun cl => cl.id) st.classes hnodupC k.c c defaultClass
          hb.1 hc hcid
      · apply idx_eq_of_proj_eq (fun su => su.id) st.subjects hnodupS k.s s defaultSubject
          hb.2.1 (subj_id_at st sid s hidx).1
        rw [(subj_id_at st sid s hidx).2]
        exact hsid2
      · simp only [inLoopRange, Bool.and_eq_true, decide_eq_true_iff]
        refine ⟨⟨⟨⟨⟨hb.1, hb.2.1⟩, hb.2.2.1⟩, ?_⟩, hb.2.2.2.1⟩, hb.2.2.2.2.1⟩
        cases hflag : st.useRoomConstraints with
        | true => exact hb.2.2.2.2.2.1 hflag
        | false =>
          rw [hb.2.2.2.2.2.2 hflag]
          exact List.length_pos.mpr hrooms
    · rintro ⟨hval, ⟨hkc, hks⟩, hloop⟩
      refine ⟨⟨?_, ?_⟩, hval⟩
      · rw [hkc]
      · rw [hks]
        exact (subj_id_at st sid s hidx).2
  have hD : (varKeys st).countP
      (fun k => o.val k && (decide (k.c = c) && decide (k.s = s) && inLoopRange st k))
      = (pairVars st c s).countP o.val := by
    rw [pairVars, List.countP_filter]
  -- put everything together
  show (((extractSolution st o.val o.uuid).entries.countP
      (fun e => e.classId == (st.classes.getD c defaultClass).id && e.subjectId == sid) : Nat) : Int)
      = (st.subjects.getD s defaultSubject).hoursPerWeek
  rw [hA, hC, hD, List.countP_eq_length_filter]
  exact h2

/-- Witness for `generate_subject_hours_of_demanded_pair` at the solvable
concrete input with a solved oracle setting exactly the pair's single key. -/
theorem generate_subject_hours_of_demanded_pair_witness :
    validateIssues dSolvable = [] ∧
    initScheduler 32 dSolvable = .ok (stOf 32 dSolvable) ∧
    buildRaises (stOf 32 dSolvable) = false ∧
    solvedStatus oSolvedOne.status = true ∧
    0 < (stOf 32 dSolvable).classes.length ∧
    "s1" ∈ ((stOf 32 dSolvable).classes.getD 0 defaultClass).requiredSubjects ∧
    dictIndex ((stOf 32 dSolvable).subjects.map (·.id)) "s1" = some 0 ∧
    pairVars (stOf 32 dSolvable) 0 0 ≠ [] ∧
    (((extractSolution (stOf 32 dSolvable) oSolvedOne.val oSolvedOne.uuid).entries.countP
        (fun e => e.classId == ((stOf 32 dSolvable).classes.getD 0 defaultClass).id &&
          e.subjectId == "s1")) : Int)
      = ((stOf 32 dSolvable).subjects.getD 0 defaultSubject).hoursPerWeek :=
  ⟨by decide, by decide, by decide, by decide, by decide, by decide, by decide, by decide,
    generate_subject_hours_of_demanded_pair 32 dSolvable oSolvedOne (stOf 32 dSolvable)
      (by decide) (by decide) (by decide) (by decide)
      ⟨fun _ _ _ => true, fun _ _ _ => true, fun _ _ _ => true, by decide⟩
      0 (by decide) "s1" (by decide) 0 (by decide) (by decide) (by decide) (by decide)
      (by decide) (by decide)
      (extractSolution (stOf 32 dSolvable) oSolvedOne.val oSolvedOne.uuid) (by decide)⟩
